import Mathlib

/-!
Verification of the document access and validation facade of the
spire-doc-mcp-server repository.

The Python source is shallowly embedded: each handler method becomes a pure
Lean function from the handler state (the in-memory document together with
its arguments) to `Except Err` of the updated state and the result
dictionary.  Raising an exception is modelled as returning `.error`;
`SaveToFile` persists the in-memory document, so a `.ok` result carries the
document state that ended up on disk and a `.error` result means the file
was left untouched.

The external Spire.Doc engine (sections, paragraphs, tables, cells,
load/save) is not part of the repository; its object graph is modelled as
plain inductive data and its collection operations follow the engine
contract stated in the specification (sections hold indexed paragraph and
table collections; `AddParagraph` appends; `Insert` places the
freshly-created object at the requested position; `ResetCells` builds a
rectangular grid of empty cells).
-/

/-- The exception hierarchy of `utils/exceptions.py` (all subclasses of
`SpireDocError` carrying a message and an error code), plus `pyError` for
raw Python exceptions that are not `SpireDocError` (used only for paths
that are unreachable after validation). -/
inductive Err where
  | documentError (message : String) (code : String)
  | paragraphError (message : String) (code : String)
  | tableError (message : String) (code : String)
  | conversionError (message : String) (code : String)
  | pyError (message : String)
  deriving DecidableEq, Repr

/-- `str(e)` on an exception: its message. -/
def Err.message : Err → String
  | .documentError m _ => m
  | .paragraphError m _ => m
  | .tableError m _ => m
  | .conversionError m _ => m
  | .pyError m => m

/-! ## Path resolution (`api/base.py`)

`os.path.join` and `os.path.dirname` are modelled character-exactly for
POSIX paths, following the reference implementations in `posixpath.py`. -/

/-- POSIX `os.path.join a b` (two-argument case): an absolute second
component replaces the first; otherwise a separator is added unless the
first component is empty or already ends in one. -/
def posixJoin (a b : List Char) : List Char :=
  if b.head? = some '/' then b
  else if a = [] ∨ a.getLast? = some '/' then a ++ b
  else a ++ '/' :: b

/-- POSIX `os.path.dirname p`: everything up to the final separator, with
trailing separators stripped unless the result consists only of
separators. -/
def posixDirname (p : List Char) : List Char :=
  let head := (p.reverse.dropWhile (fun c => c != '/')).reverse
  if head = [] ∨ head.all (fun c => c == '/') then head
  else (head.reverse.dropWhile (fun c => c == '/')).reverse

/-- `get_doc_path` of `api/base.py`, for an explicitly supplied documents
directory (the `doc_files_path is None` default and the `os.makedirs` side
effect are outside the model; `os.path` is the POSIX implementation). -/
def get_doc_path_chars (filename doc_dir : List Char) : Except Err (List Char) :=
  let doc_path := posixJoin doc_dir filename
  if posixDirname doc_path ≠ doc_dir then
    .error (.documentError "Invalid document path" "DOC_LOAD_ERROR")
  else
    .ok doc_path

/-- String-level wrapper of `get_doc_path_chars`, matching the source
signature `get_doc_path(filename, doc_files_path)`. -/
def get_doc_path (filename doc_files_path : String) : Except Err String :=
  match get_doc_path_chars filename.data doc_files_path.data with
  | .error e => .error e
  | .ok l => .ok (String.mk l)

deriving instance DecidableEq for Except

example : get_doc_path "a.docx" "./word_files" = .ok "./word_files/a.docx" := by decide
example : get_doc_path "../a.docx" "./word_files" =
    .error (.documentError "Invalid document path" "DOC_LOAD_ERROR") := by decide
example : get_doc_path "" "./word_files" = .ok "./word_files/" := by decide
example : get_doc_path ".." "./word_files" = .ok "./word_files/.." := by decide

/-! ## Engine object model

Model of the Spire.Doc document object graph as used by the handlers:
sections hold indexed paragraph and table collections, tables hold rows of
cells, cells hold paragraphs.  Formatting values are rationals (the claims
only inspect their sign, never float rounding). -/

/-- Engine `HorizontalAlignment` enumeration. -/
inductive HA where
  | Left | Center | Right | Justify
  deriving DecidableEq, Repr

/-- Engine `LineSpacingRule` enumeration. -/
inductive LSR where
  | AtLeast | Exactly | Multiple
  deriving DecidableEq, Repr

/-- `str()` of an engine alignment value, as stored in result dictionaries. -/
def haStr : HA → String
  | .Left => "HorizontalAlignment.Left"
  | .Center => "HorizontalAlignment.Center"
  | .Right => "HorizontalAlignment.Right"
  | .Justify => "HorizontalAlignment.Justify"

/-- `str()` of an engine line-spacing rule. -/
def lsrStr : LSR → String
  | .AtLeast => "LineSpacingRule.AtLeast"
  | .Exactly => "LineSpacingRule.Exactly"
  | .Multiple => "LineSpacingRule.Multiple"

/-- A paragraph's `Format` record. -/
structure ParaFormat where
  horizontalAlignment : HA := .Left
  firstLineIndent : ℚ := 0
  leftIndent : ℚ := 0
  rightIndent : ℚ := 0
  lineSpacing : ℚ := 12
  lineSpacingRule : LSR := .Multiple
  beforeSpacing : ℚ := 0
  afterSpacing : ℚ := 0
  deriving DecidableEq, Repr

/-- An engine paragraph: text plus its format (a freshly created paragraph
is empty with default formatting). -/
structure Para where
  text : String := ""
  format : ParaFormat := {}
  deriving DecidableEq, Repr

/-- A table cell: holds a paragraph collection. -/
structure Cell where
  paragraphs : List Para := []
  deriving DecidableEq, Repr

/-- A table row: holds a cell collection. -/
structure TableRow where
  cells : List Cell := []
  deriving DecidableEq, Repr

/-- An engine table: holds a row collection. -/
structure DocTable where
  rows : List TableRow := []
  deriving DecidableEq, Repr

/-- A document section: its `Paragraphs` and `Tables` collections. -/
structure Section where
  paragraphs : List Para := []
  tables : List DocTable := []
  deriving DecidableEq, Repr

/-- A loaded document: its `Sections` collection. -/
structure Document where
  sections : List Section := []
  deriving DecidableEq, Repr

/-- List insertion at an index, the engine's collection `Insert`
semantics (indices beyond the end clamp to an append, as with Python's
`list.insert`; every call site validates the index first). -/
def listInsertAt : Nat → α → List α → List α
  | 0, a, l => a :: l
  | _ + 1, a, [] => [a]
  | n + 1, a, x :: xs => x :: listInsertAt n a xs

/-- Engine `ResetCells(rows, columns)`: a rectangular grid of empty cells. -/
def mkEngineTable (rows cols : Nat) : DocTable :=
  { rows := List.replicate rows { cells := List.replicate cols {} } }

/-! ## `BaseHandler` (`core/base.py`) -/

/-- The filesystem as seen by the handlers: maps a path to the document the
engine would load from it (`none` when `os.path.isfile` is false or the
engine cannot parse the file).  Read/write permission checks are modelled
as granted. -/
def FS := String → Option Document

/-- Python `str.lower()` by per-character mapping (the library's
`String.toLower` does not reduce inside the kernel). -/
def strLower (s : String) : String :=
  String.mk (s.data.map Char.toLower)

/-- Lowercased extension whitelist check of `BaseHandler.__init__`. -/
def hasWordExtension (p : String) : Bool :=
  [".doc", ".docx", ".docm", ".dot", ".dotx", ".dotm"].any
    (fun e => e.data.isSuffixOf (strLower p).data)

/-- `BaseHandler.__init__` plus `_load_document`: empty-path check, file
existence, extension whitelist, engine load, and the at-least-one-section
check.  `os.path.abspath` is modelled as the identity (callers pass the
already-joined path).  Every error raised here is a `DocumentError`. -/
def baseHandlerInit (fs : FS) (doc_path : String) : Except Err Document :=
  if doc_path = "" then
    .error (.documentError "Document path cannot be empty" "DOC_LOAD_ERROR")
  else
    match fs doc_path with
    | none =>
        .error (.documentError ("Document file not found: " ++ doc_path) "DOC_LOAD_ERROR")
    | some doc =>
        if ¬ hasWordExtension doc_path then
          .error (.documentError ("Unsupported document format: " ++ doc_path) "DOC_LOAD_ERROR")
        else if doc.sections.length = 0 then
          .error (.documentError "Document has no sections" "DOC_LOAD_ERROR")
        else
          .ok doc

/-- `BaseHandler._validate_section_index` (the argument is always an `Int`,
so the `isinstance` branch is vacuous; the `self.document` null check never
fires because a handler always carries a loaded document). -/
def validateSectionIndex (doc : Document) (i : Int) : Except Err Unit :=
  if i < 0 then
    .error (.documentError ("Section index cannot be negative: " ++ toString i) "DOC_LOAD_ERROR")
  else if i ≥ (doc.sections.length : Int) then
    .error (.documentError
      ("Section index " ++ toString i ++ " out of range (document has "
        ++ toString doc.sections.length ++ " sections)") "DOC_LOAD_ERROR")
  else
    .ok ()

/-- `BaseHandler._validate_paragraph_index`. -/
def validateParagraphIndex (doc : Document) (p s : Int) : Except Err Unit := do
  validateSectionIndex doc s
  if p < 0 then
    throw (.documentError ("Paragraph index cannot be negative: " ++ toString p) "DOC_LOAD_ERROR")
  else
    match doc.sections.get? s.toNat with
    | none => throw (.pyError "section index out of range")
    | some sec =>
        if p ≥ (sec.paragraphs.length : Int) then
          throw (.documentError
            ("Paragraph index " ++ toString p ++ " out of range (section " ++ toString s
              ++ " has " ++ toString sec.paragraphs.length ++ " paragraphs)") "DOC_LOAD_ERROR")
        else
          pure ()

/-! ## `ParagraphHandler` (`core/paragraph.py`) -/

/-- `except Exception as e: raise ParagraphError(f"{prefixMsg}{e}")` — the
unconditional wrapper each `ParagraphHandler` method ends with. -/
def wrapParagraph (prefixMsg : String) : Except Err α → Except Err α
  | .ok a => .ok a
  | .error e => .error (.paragraphError (prefixMsg ++ e.message) "PARA_CREATE_ERROR")

/-- Python `bool(text.strip())`: the text has a non-whitespace character. -/
def hasContent (t : String) : Bool :=
  t.data.any (fun c => ¬ c.isWhitespace)

/-- Count of maximal non-whitespace runs (`inw` tracks being inside a
run): Python `len(text.split())`. -/
def wordRunsAux : Bool → List Char → Nat
  | _, [] => 0
  | inw, c :: cs =>
      if c.isWhitespace then wordRunsAux false cs
      else (if inw then 0 else 1) + wordRunsAux true cs

/-- Python `len(text.split())` (whitespace splitting drops empty pieces, so
this is the number of maximal non-whitespace runs); the
`if text.strip() else 0` guard of the source is subsumed. -/
def countWords (t : String) : Nat :=
  wordRunsAux false t.data

/-- Python `len(text.split('\n')) if text else 0`: one more than the
newline count for non-empty text. -/
def countLines (t : String) : Nat :=
  if t = "" then 0 else t.data.countP (fun c => c == '\n') + 1

/-- Result dictionary of `ParagraphHandler.get_paragraph_text`. -/
structure ParaTextResult where
  section_index : Int
  paragraph_index : Int
  text : String
  text_length : Nat
  has_text : Bool
  word_count : Nat
  line_count : Nat
  deriving DecidableEq, Repr

/-- `ParagraphHandler.get_paragraph_text`. -/
def get_paragraph_text (doc : Document) (paragraph_index section_index : Int) :
    Except Err ParaTextResult :=
  wrapParagraph "Failed to get paragraph text: " (do
    validateParagraphIndex doc paragraph_index section_index
    match doc.sections.get? section_index.toNat with
    | none => throw (.pyError "section index out of range")
    | some sec =>
        match sec.paragraphs.get? paragraph_index.toNat with
        | none => throw (.pyError "paragraph index out of range")
        | some para =>
            pure { section_index := section_index
                   paragraph_index := paragraph_index
                   text := para.text
                   text_length := para.text.length
                   has_text := hasContent para.text
                   word_count := countWords para.text
                   line_count := countLines para.text })

/-- Result dictionary of `ParagraphHandler.get_paragraphinfo` (the
`style_name` attribute is not part of the engine model and is omitted). -/
structure ParaInfoResult where
  section_index : Int
  paragraph_index : Int
  text : String
  text_length : Nat
  has_text : Bool
  alignment : String
  deriving DecidableEq, Repr

/-- `ParagraphHandler.get_paragraphinfo`. -/
def get_paragraphinfo (doc : Document) (paragraph_index section_index : Int) :
    Except Err ParaInfoResult :=
  wrapParagraph "Failed to get paragraph info: " (do
    validateParagraphIndex doc paragraph_index section_index
    match doc.sections.get? section_index.toNat with
    | none => throw (.pyError "section index out of range")
    | some sec =>
        match sec.paragraphs.get? paragraph_index.toNat with
        | none => throw (.pyError "paragraph index out of range")
        | some para =>
            pure { section_index := section_index
                   paragraph_index := paragraph_index
                   text := para.text
                   text_length := para.text.length
                   has_text := hasContent para.text
                   alignment := haStr para.format.horizontalAlignment })

/-- Result dictionary of `ParagraphHandler.delete_paragraph`. -/
structure DeleteParaResult where
  section_index : Int
  paragraph_index : Int
  deleted_text : String
  deriving DecidableEq, Repr

/-- `ParagraphHandler.delete_paragraph`: validate, read the pre-state info,
`RemoveAt`, save.  An `.ok` result carries the saved document. -/
def delete_paragraph (doc : Document) (paragraph_index section_index : Int) :
    Except Err (Document × DeleteParaResult) :=
  wrapParagraph "Failed to delete paragraph: " (do
    validateParagraphIndex doc paragraph_index section_index
    let info ← get_paragraphinfo doc paragraph_index section_index
    match doc.sections.get? section_index.toNat with
    | none => throw (.pyError "section index out of range")
    | some sec =>
        let sec' := { sec with paragraphs := sec.paragraphs.eraseIdx paragraph_index.toNat }
        let doc' := { doc with sections := doc.sections.set section_index.toNat sec' }
        pure (doc', { section_index := section_index
                      paragraph_index := paragraph_index
                      deleted_text := info.text }))

/-- Result dictionary of `ParagraphHandler.add_paragraph`. -/
structure AddParaResult where
  section_index : Int
  paragraph_index : Int
  text : String
  text_length : Nat
  word_count : Nat
  total_paragraphs_in_section : Nat
  deriving DecidableEq, Repr

/-- `ParagraphHandler.add_paragraph`.  With an explicit index the source
creates the paragraph at the end (`AddParagraph`) and then
`Paragraphs.Insert` moves it to the requested position (engine contract:
"the new paragraph is created then moved to that position"); the combined
effect on the collection is an insertion at that index.  The text is set on
the paragraph object afterwards, so the inserted element carries `text`. -/
def add_paragraph (doc : Document) (text : String) (section_index : Int)
    (paragraph_index : Option Int) : Except Err (Document × AddParaResult) :=
  wrapParagraph "Failed to add paragraph: " (do
    validateSectionIndex doc section_index
    match doc.sections.get? section_index.toNat with
    | none => throw (.pyError "section index out of range")
    | some sec => do
        match paragraph_index with
        | some i =>
            if i < 0 ∨ i > (sec.paragraphs.length : Int) then
              throw (.paragraphError ("Invalid paragraph index: " ++ toString i)
                "PARA_CREATE_ERROR")
            else
              let paras' := listInsertAt i.toNat { text := text } sec.paragraphs
              let sec' := { sec with paragraphs := paras' }
              let doc' := { doc with sections := doc.sections.set section_index.toNat sec' }
              pure (doc', { section_index := section_index
                            paragraph_index := i
                            text := text
                            text_length := text.length
                            word_count := countWords text
                            total_paragraphs_in_section := paras'.length })
        | none =>
            let paras' := sec.paragraphs ++ [{ text := text }]
            let sec' := { sec with paragraphs := paras' }
            let doc' := { doc with sections := doc.sections.set section_index.toNat sec' }
            pure (doc', { section_index := section_index
                          paragraph_index := (paras'.length : Int) - 1
                          text := text
                          text_length := text.length
                          word_count := countWords text
                          total_paragraphs_in_section := paras'.length }))


/-! ## `FormatHandler` (`core/format.py`) -/

/-- A formatting argument as received from Python: either a number
(`int`/`float`) or a non-numeric value. -/
inductive PyVal where
  | num (q : ℚ)
  | nonNum (repr : String)
  deriving DecidableEq, Repr

/-- `except Exception as e: if isinstance(e, DocumentError): raise e else
raise DocumentError(f"{prefixMsg}{e}")` — the conditional wrapper of the
`FormatHandler` and `DocumentHandler` methods. -/
def wrapDocumentKeep (prefixMsg : String) : Except Err α → Except Err α
  | .ok a => .ok a
  | .error (.documentError m c) => .error (.documentError m c)
  | .error e => .error (.documentError (prefixMsg ++ e.message) "DOC_LOAD_ERROR")

/-- Alignment validation step of `_validate_formatting_parameters`. -/
def checkAlignment : Option String → Except Err Unit
  | none => .ok ()
  | some a =>
      if strLower a = "left" ∨ strLower a = "center" ∨ strLower a = "right"
          ∨ strLower a = "justify" then
        .ok ()
      else
        .error (.documentError
          ("Invalid alignment: " ++ a ++ ". Valid values: left, center, right, justify")
          "DOC_LOAD_ERROR")

/-- Line-spacing-rule validation step of `_validate_formatting_parameters`. -/
def checkRule : Option String → Except Err Unit
  | none => .ok ()
  | some r =>
      if strLower r = "at_least" ∨ strLower r = "exactly" ∨ strLower r = "multiple" then
        .ok ()
      else
        .error (.documentError
          ("Invalid line spacing rule: " ++ r ++ ". Valid values: at_least, exactly, multiple")
          "DOC_LOAD_ERROR")

/-- Numeric validation step of `_validate_formatting_parameters`: a supplied
value must be a number and non-negative. -/
def checkNumeric (pname : String) : Option PyVal → Except Err Unit
  | none => .ok ()
  | some (.nonNum r) =>
      .error (.documentError (pname ++ " must be a number, got " ++ r) "DOC_LOAD_ERROR")
  | some (.num q) =>
      if q < 0 then
        .error (.documentError (pname ++ " cannot be negative: " ++ toString q) "DOC_LOAD_ERROR")
      else
        .ok ()

/-- `FormatHandler._validate_formatting_parameters`: alignment, then rule,
then the numeric parameters in source order. -/
def validate_formatting_parameters (alignment line_spacing_rule : Option String)
    (first_line_indent left_indent right_indent line_spacing before_spacing after_spacing :
      Option PyVal) : Except Err Unit := do
  checkAlignment alignment
  checkRule line_spacing_rule
  checkNumeric "first_line_indent" first_line_indent
  checkNumeric "left_indent" left_indent
  checkNumeric "right_indent" right_indent
  checkNumeric "line_spacing" line_spacing
  checkNumeric "before_spacing" before_spacing
  checkNumeric "after_spacing" after_spacing

/-- `alignment_map[alignment.lower()]`; the fallback is unreachable because
the value was validated. -/
def alignMap (a : String) : HA :=
  if strLower a = "left" then .Left
  else if strLower a = "center" then .Center
  else if strLower a = "right" then .Right
  else if strLower a = "justify" then .Justify
  else .Left

/-- `rule_map[line_spacing_rule.lower()]`; fallback likewise unreachable. -/
def ruleMap (r : String) : LSR :=
  if strLower r = "at_least" then .AtLeast
  else if strLower r = "exactly" then .Exactly
  else if strLower r = "multiple" then .Multiple
  else .Multiple

/-- A formatting snapshot as serialized into the result dictionary. -/
structure FormatSnapshot where
  alignment : String
  first_line_indent : ℚ
  left_indent : ℚ
  right_indent : ℚ
  line_spacing : ℚ
  line_spacing_rule : String
  before_spacing : ℚ
  after_spacing : ℚ
  deriving DecidableEq, Repr

/-- Serialize a `ParaFormat` as `format_paragraph` does. -/
def snapshotOf (f : ParaFormat) : FormatSnapshot :=
  { alignment := haStr f.horizontalAlignment
    first_line_indent := f.firstLineIndent
    left_indent := f.leftIndent
    right_indent := f.rightIndent
    line_spacing := f.lineSpacing
    line_spacing_rule := lsrStr f.lineSpacingRule
    before_spacing := f.beforeSpacing
    after_spacing := f.afterSpacing }

/-- The `changes_applied` map of the `format_paragraph` result. -/
structure ChangesApplied where
  alignment : Bool
  first_line_indent : Bool
  left_indent : Bool
  right_indent : Bool
  line_spacing : Bool
  line_spacing_rule : Bool
  before_spacing : Bool
  after_spacing : Bool
  deriving DecidableEq, Repr

/-- Result dictionary of `FormatHandler.format_paragraph`. -/
structure FormatResult where
  success : Bool
  message : String
  paragraph_index : Int
  original_formatting : FormatSnapshot
  current_formatting : FormatSnapshot
  changes_applied : ChangesApplied
  deriving DecidableEq, Repr

/-- The sequential field updates of `format_paragraph` (each supplied field
is assigned in source order; the line-spacing rule is only assigned when
`line_spacing` itself was supplied).  Non-numeric values never reach this
point because validation rejected them. -/
def applyFormatting (f : ParaFormat) (alignment : Option String)
    (first_line_indent left_indent right_indent line_spacing : Option PyVal)
    (line_spacing_rule : Option String) (before_spacing after_spacing : Option PyVal) :
    ParaFormat :=
  let f := match alignment with
    | some a => { f with horizontalAlignment := alignMap a }
    | none => f
  let f := match first_line_indent with
    | some (.num q) => { f with firstLineIndent := q }
    | _ => f
  let f := match left_indent with
    | some (.num q) => { f with leftIndent := q }
    | _ => f
  let f := match right_indent with
    | some (.num q) => { f with rightIndent := q }
    | _ => f
  let f := match line_spacing with
    | some (.num q) =>
        let g := { f with lineSpacing := q }
        match line_spacing_rule with
        | some r => { g with lineSpacingRule := ruleMap r }
        | none => g
    | _ => f
  let f := match before_spacing with
    | some (.num q) => { f with beforeSpacing := q }
    | _ => f
  match after_spacing with
  | some (.num q) => { f with afterSpacing := q }
  | _ => f

/-- `FormatHandler.format_paragraph`: validate the paragraph index (section
0) and all supplied parameters, then apply the supplied fields and save.
An `.error` result means validation failed before any mutation, so the
document on disk is unchanged. -/
def format_paragraph (doc : Document) (paragraph_index : Int)
    (alignment : Option String)
    (first_line_indent left_indent right_indent line_spacing : Option PyVal)
    (line_spacing_rule : Option String) (before_spacing after_spacing : Option PyVal) :
    Except Err (Document × FormatResult) :=
  wrapDocumentKeep "Failed to format paragraph: " (do
    validateParagraphIndex doc paragraph_index 0
    validate_formatting_parameters alignment line_spacing_rule first_line_indent
      left_indent right_indent line_spacing before_spacing after_spacing
    match doc.sections.get? 0 with
    | none => throw (.pyError "section index out of range")
    | some sec =>
        match sec.paragraphs.get? paragraph_index.toNat with
        | none => throw (.pyError "paragraph index out of range")
        | some para =>
            let original := snapshotOf para.format
            let fmt' := applyFormatting para.format alignment first_line_indent left_indent
              right_indent line_spacing line_spacing_rule before_spacing after_spacing
            let para' := { para with format := fmt' }
            let sec' := { sec with paragraphs := sec.paragraphs.set paragraph_index.toNat para' }
            let doc' := { doc with sections := doc.sections.set 0 sec' }
            pure (doc',
              { success := true
                message := "Formatting applied to paragraph " ++ toString paragraph_index
                paragraph_index := paragraph_index
                original_formatting := original
                current_formatting := snapshotOf fmt'
                changes_applied :=
                  { alignment := alignment.isSome
                    first_line_indent := first_line_indent.isSome
                    left_indent := left_indent.isSome
                    right_indent := right_indent.isSome
                    line_spacing := line_spacing.isSome
                    line_spacing_rule := line_spacing_rule.isSome
                    before_spacing := before_spacing.isSome
                    after_spacing := after_spacing.isSome } }))

/-- `FormatHandler.get_paragraph_format` (data part). -/
def get_paragraph_format (doc : Document) (paragraph_index : Int) :
    Except Err FormatSnapshot :=
  wrapDocumentKeep "Failed to get paragraph format: " (do
    validateParagraphIndex doc paragraph_index 0
    match doc.sections.get? 0 with
    | none => throw (.pyError "section index out of range")
    | some sec =>
        match sec.paragraphs.get? paragraph_index.toNat with
        | none => throw (.pyError "paragraph index out of range")
        | some para => pure (snapshotOf para.format))

/-! ## `TableHandler` (`core/table.py`) -/

/-- `except Exception as e: if isinstance(e, TableError): raise e else
raise TableError(f"{prefixMsg}{e}", code)` — the conditional wrapper of
the `TableHandler` methods. -/
def wrapTableKeep (prefixMsg code : String) : Except Err α → Except Err α
  | .ok a => .ok a
  | .error (.tableError m c) => .error (.tableError m c)
  | .error e => .error (.tableError (prefixMsg ++ e.message) code)

/-- Result dictionary of `TableHandler.get_table_info`. -/
structure TableInfoResult where
  table_index : Int
  section_index : Int
  rows : Nat
  columns : Nat
  total_cells : Nat
  deriving DecidableEq, Repr

/-- Column extent used by `get_table_info`:
`table.Rows[0].Cells.Count if table.Rows.Count > 0 else 0`. -/
def rowZeroColumns (tbl : DocTable) : Nat :=
  match tbl.rows.get? 0 with
  | some r0 => r0.cells.length
  | none => 0

/-- `TableHandler.get_table_info`: the column extent is row 0's cell count
(0 when the table has no rows). -/
def get_table_info (doc : Document) (table_index section_index : Int) :
    Except Err TableInfoResult :=
  wrapTableKeep "Failed to get table info: " "TABLE_INFO_ERROR" (do
    validateSectionIndex doc section_index
    match doc.sections.get? section_index.toNat with
    | none => throw (.pyError "section index out of range")
    | some sec =>
        if table_index < 0 ∨ table_index ≥ (sec.tables.length : Int) then
          throw (.tableError ("Invalid table index: " ++ toString table_index)
            "TABLE_INFO_ERROR")
        else
          match sec.tables.get? table_index.toNat with
          | none => throw (.pyError "table index out of range")
          | some tbl =>
              pure { table_index := table_index
                     section_index := section_index
                     rows := tbl.rows.length
                     columns := rowZeroColumns tbl
                     total_cells := tbl.rows.length * rowZeroColumns tbl })

/-- Result dictionary of `TableHandler.create_table`. -/
structure CreateTableResult where
  success : Bool
  message : String
  table_index : Nat
  section_index : Int
  paragraph_index : Option Int
  dimension_rows : Int
  dimension_columns : Int
  style : Option String
  total_tables_in_section : Nat
  deriving DecidableEq, Repr

/-- The `if paragraph_index is not None: self._validate_paragraph_index(...)`
step of `create_table`. -/
def validateOptionalParagraphIndex (doc : Document) (paragraph_index : Option Int)
    (section_index : Int) : Except Err Unit :=
  match paragraph_index with
  | some i => validateParagraphIndex doc i section_index
  | none => pure ()

/-- Table placement of `create_table`: with a paragraph index the new table
object goes to `min(paragraph_index + 1, len(section.Tables))` in the table
collection (`AddTable(True)` creates it without inserting, so the length is
the pre-insertion count); otherwise it is appended. -/
def insertTableAt (tables : List DocTable) (tbl : DocTable)
    (paragraph_index : Option Int) : List DocTable :=
  match paragraph_index with
  | some i => listInsertAt (min (i.toNat + 1) tables.length) tbl tables
  | none => tables ++ [tbl]

/-- `TableHandler.create_table`: validate the section (and, when supplied,
the paragraph index), then the dimension bounds, then build the table.
With a paragraph index the table object is created without being inserted
(`AddTable(True)`) and then placed at
`min(paragraph_index + 1, len(section.Tables))` in the table collection;
otherwise it is appended.  The reported `table_index` is computed as
`len(section.Tables) - 1` after the insertion.  Style application is
best-effort and does not affect the model.  An `.error` result means no
table was added and nothing was saved. -/
def create_table (doc : Document) (rows columns : Int) (section_index : Int)
    (paragraph_index : Option Int) (style : Option String) :
    Except Err (Document × CreateTableResult) :=
  wrapTableKeep "Failed to create table: " "TABLE_CREATE_ERROR" (do
    validateSectionIndex doc section_index
    match doc.sections.get? section_index.toNat with
    | none => throw (.pyError "section index out of range")
    | some sec => do
        validateOptionalParagraphIndex doc paragraph_index section_index
        if rows ≤ 0 ∨ columns ≤ 0 then
          throw (.tableError "Table dimensions must be positive" "TABLE_CREATE_ERROR")
        else if rows > 1000 ∨ columns > 100 then
          throw (.tableError "Table dimensions too large (max: 1000 rows, 100 columns)"
            "TABLE_CREATE_ERROR")
        else
          let tbl := mkEngineTable rows.toNat columns.toNat
          let tables' := insertTableAt sec.tables tbl paragraph_index
          let sec' := { sec with tables := tables' }
          let doc' := { doc with sections := doc.sections.set section_index.toNat sec' }
          pure (doc',
            { success := true
              message := "Table created successfully"
              table_index := tables'.length - 1
              section_index := section_index
              paragraph_index := paragraph_index
              dimension_rows := rows
              dimension_columns := columns
              style := style
              total_tables_in_section := tables'.length }))

/-- Result dictionary of `TableHandler.set_cell_text`. -/
structure SetCellResult where
  section_index : Int
  table_index : Int
  row : Int
  column : Int
  original_text : String
  new_text : String
  deriving DecidableEq, Repr

/-- `TableHandler.set_cell_text`: bounds come from `get_table_info` (row
count and row 0's cell count); the text goes into the cell's first
paragraph, which is created if the cell has none.  An `.error` result means
the table is unmodified (nothing was saved). -/
def set_cell_text (doc : Document) (table_index row column : Int) (text : String)
    (section_index : Int) : Except Err (Document × SetCellResult) :=
  wrapTableKeep "Failed to set cell text: " "TABLE_CELL_ERROR" (do
    let info ← get_table_info doc table_index section_index
    if row < 0 ∨ row ≥ (info.rows : Int) then
      throw (.tableError ("Invalid row index: " ++ toString row) "TABLE_CELL_ERROR")
    else if column < 0 ∨ column ≥ (info.columns : Int) then
      throw (.tableError ("Invalid column index: " ++ toString column) "TABLE_CELL_ERROR")
    else
      match doc.sections.get? section_index.toNat with
      | none => throw (.pyError "section index out of range")
      | some sec =>
          match sec.tables.get? table_index.toNat with
          | none => throw (.pyError "table index out of range")
          | some tbl =>
              match tbl.rows.get? row.toNat with
              | none => throw (.pyError "row index out of range")
              | some rowObj =>
                  match rowObj.cells.get? column.toNat with
                  | none => throw (.pyError "cell index out of range")
                  | some cell =>
                      let (original_text, cell') := match cell.paragraphs with
                        | p :: ps => (p.text, Cell.mk ({ p with text := text } :: ps))
                        | [] => ("", Cell.mk [{ text := text }])
                      let rowObj' := { rowObj with
                        cells := rowObj.cells.set column.toNat cell' }
                      let tbl' := { tbl with rows := tbl.rows.set row.toNat rowObj' }
                      let sec' := { sec with tables := sec.tables.set table_index.toNat tbl' }
                      let doc' := { doc with
                        sections := doc.sections.set section_index.toNat sec' }
                      pure (doc', { section_index := section_index
                                    table_index := table_index
                                    row := row
                                    column := column
                                    original_text := original_text
                                    new_text := text }))

/-! ## `DocumentHandler.find_and_replace` (`core/document.py`) -/

/-- Engine `Document.Replace`: replaces occurrences of the search text in
every paragraph (body and table cells).  The case / whole-word flags are
engine-internal and not modelled; the wrapper's result does not depend on
them.  The engine's replacement count is discarded by the wrapper. -/
def engineReplace (doc : Document) (find_text replace_text : String) : Document :=
  { sections := doc.sections.map (fun sec =>
      { sec with
        paragraphs := sec.paragraphs.map (fun p =>
          { p with text := p.text.replace find_text replace_text })
        tables := sec.tables.map (fun t =>
          { t with rows := t.rows.map (fun r =>
              { r with cells := r.cells.map (fun c =>
                  { c with paragraphs := c.paragraphs.map (fun p =>
                      { p with text := p.text.replace find_text replace_text }) }) }) }) }) }

/-- Result dictionary of `DocumentHandler.find_and_replace` (the
`search_params` sub-dictionary is inlined). -/
structure ReplaceResult where
  success : Bool
  message : String
  replacements : Nat
  find_text : String
  replace_text : String
  match_case : Bool
  match_whole_word : Bool
  deriving DecidableEq, Repr

/-- `except Exception as e: raise DocumentError(f"{prefixMsg}{e}")` — the
unconditional wrapper of `find_and_replace`. -/
def wrapDocumentAll (prefixMsg : String) : Except Err α → Except Err α
  | .ok a => .ok a
  | .error e => .error (.documentError (prefixMsg ++ e.message) "DOC_LOAD_ERROR")

/-- `DocumentHandler.find_and_replace`: rejects an empty search text, calls
the engine's `Replace`, saves, and reports a hard-coded replacement count
of 1 whatever the engine actually did. -/
def find_and_replace (doc : Document) (find_text replace_text : String)
    (match_case match_whole_word : Bool) : Except Err (Document × ReplaceResult) :=
  wrapDocumentAll "Failed to replace text: " (do
    if find_text = "" then
      throw (.documentError "Find text cannot be empty" "DOC_LOAD_ERROR")
    else
      pure (engineReplace doc find_text replace_text,
        { success := true
          message := "Text replacement completed successfully"
          replacements := 1
          find_text := find_text
          replace_text := replace_text
          match_case := match_case
          match_whole_word := match_whole_word }))

/-! ## `ConversionHandler` (`core/conversion.py`) -/

/-- `SUPPORTED_FORMATS.keys()` of `utils/constants.py`. -/
def SUPPORTED_FORMAT_NAMES : List String :=
  ["docx", "doc", "pdf", "rtf", "txt", "html", "epub", "odt", "xml", "md"]

/-- Python `s.split(sep)` for a one-character separator, by structural
recursion (the library's `String.splitOn` does not reduce inside the
kernel). -/
def splitOnChar (sep : Char) : List Char → List (List Char)
  | [] => [[]]
  | c :: cs =>
      match splitOnChar sep cs with
      | [] => [[]]
      | r :: rs => if c = sep then [] :: r :: rs else (c :: r) :: rs

/-- Joining with a one-character separator (inverse of `splitOnChar`). -/
def joinWithChar (sep : Char) : List (List Char) → List Char
  | [] => []
  | [l] => l
  | l :: l' :: ls => l ++ sep :: joinWithChar sep (l' :: ls)

/-- Python `s.split('.')[-1]`. -/
def lastDotSegment (s : String) : String :=
  String.mk (((splitOnChar '.' s.data).getLast?).getD s.data)

/-- Python `s.rsplit('.', 1)[0]`: everything before the last dot, or the
whole string when there is none. -/
def beforeLastDot (s : String) : String :=
  let parts := splitOnChar '.' s.data
  if parts.length ≤ 1 then s else String.mk (joinWithChar '.' parts.dropLast)

/-- Python `os.path.basename`. -/
def baseNameOf (s : String) : String :=
  String.mk (((splitOnChar '/' s.data).getLast?).getD s.data)

/-- One record of the conversion history.  Success records carry
`output_path`; failure records carry `error` instead. -/
structure ConvRecord where
  timestamp : String
  source_format : Option String
  target_format : String
  output_path : Option String := none
  error : Option String := none
  status : String
  deriving DecidableEq, Repr

/-- `ConversionHandler.__init__`: the tracker starts with an empty history
and an empty status dictionary (modelled as `none`). -/
structure ConvState where
  doc_path : Option String := none
  conversion_history : List ConvRecord := []
  conversion_status : Option ConvRecord := none
  deriving Repr

/-- `ConversionHandler._load_document`: fails with a `DocumentError` when no
path was supplied or the engine cannot load the file. -/
def convLoadDocument (fs : FS) (doc_path : Option String) : Except Err Unit :=
  match doc_path with
  | none => .error (.documentError "No document path provided" "DOC_LOAD_ERROR")
  | some p =>
      match fs p with
      | some _ => .ok ()
      | none => .error (.documentError "Failed to load document: file not found" "DOC_LOAD_ERROR")

/-- Result dictionary of a successful `convert_document`. -/
structure ConvOkResult where
  document : String
  source_format : String
  target_format : String
  output_path : String
  timestamp : String
  deriving DecidableEq, Repr

/-- The `try` body of `convert_document`: format check, engine load,
output-path computation (the engine save is modelled as succeeding).
Returns the output path and the lowercased source format. -/
def convertBody (st : ConvState) (fs : FS) (target_format : String)
    (output_path : Option String) : Except Err (String × String) := do
  if ¬ ((strLower target_format) ∈ SUPPORTED_FORMAT_NAMES) then
    throw (.conversionError ("Unsupported format: " ++ target_format) "CONV_PROCESS_ERROR")
  else do
    convLoadDocument fs st.doc_path
    let opath := match output_path with
      | none => beforeLastDot (st.doc_path.getD "") ++ "." ++ (strLower target_format)
      | some o =>
          if ("." ++ (strLower target_format)).data.isSuffixOf (strLower o).data then o
          else beforeLastDot o ++ "." ++ (strLower target_format)
    pure (opath, strLower (lastDotSegment (st.doc_path.getD "")))

/-- `ConversionHandler.convert_document`.  The target format must be
supported and the document loadable; the output path defaults to the source
path with its extension replaced.  Both outcomes append a record to
`conversion_history` and overwrite `conversion_status`; the failure branch
stores `str(e)` in the record's `error` field and re-raises a
`ConversionError`.  The engine's `SaveToFile` is modelled as succeeding. -/
def convert_document (st : ConvState) (fs : FS) (target_format : String)
    (output_path : Option String) (now : String) :
    ConvState × Except Err ConvOkResult :=
  match convertBody st fs target_format output_path with
  | .ok (opath, sfmt) =>
      let record : ConvRecord :=
        { timestamp := now
          source_format := some sfmt
          target_format := (strLower target_format)
          output_path := some opath
          status := "success" }
      ({ st with conversion_history := st.conversion_history ++ [record]
                 conversion_status := some record },
       .ok { document := baseNameOf (st.doc_path.getD "")
             source_format := sfmt
             target_format := (strLower target_format)
             output_path := opath
             timestamp := now })
  | .error e =>
      let record : ConvRecord :=
        { timestamp := now
          source_format := st.doc_path.map (fun p => strLower (lastDotSegment p))
          target_format := (strLower target_format)
          error := some e.message
          status := "failed" }
      ({ st with conversion_history := st.conversion_history ++ [record]
                 conversion_status := some record },
       .error (.conversionError ("Failed to convert document: " ++ e.message)
         "CONV_PROCESS_ERROR"))

/-- `ConversionHandler.get_conversion_status`: the current status record
(the empty dictionary, modelled `none`, when nothing ran yet). -/
def get_conversion_status (st : ConvState) : Option ConvRecord :=
  st.conversion_status

/-- Result dictionary of `ConversionHandler.get_conversion_history`. -/
structure ConvHistoryResult where
  history : List ConvRecord
  total_conversions : Nat
  deriving DecidableEq, Repr

/-- `ConversionHandler.get_conversion_history`. -/
def get_conversion_history (st : ConvState) : ConvHistoryResult :=
  { history := st.conversion_history
    total_conversions := st.conversion_history.length }

/-! ## Tool layer (`api/*.py`)

Each tool function wraps its body in a `try` that catches ONLY its module's
own exception class; any other exception leaves the function.  The outcome
of a tool call is therefore either a returned response dictionary or an
uncaught, propagating exception. -/

/-- The `error` sub-dictionary a tool builds for a caught exception. -/
structure ErrorInfo where
  code : String
  typ : String
  details : String
  suggestion : String
  deriving DecidableEq, Repr

/-- A tool response dictionary: `success`/`message` plus either `data` or
`error`. -/
structure ToolResponse (α : Type) where
  success : Bool
  message : String
  data : Option α := none
  error : Option ErrorInfo := none
  deriving DecidableEq, Repr

/-- What comes out of a tool call: a returned dictionary, or an exception
that escaped the tool's `except` clause into the transport layer. -/
inductive ToolOutcome (α : Type) where
  | returns (response : ToolResponse α)
  | raised (e : Err)
  deriving DecidableEq, Repr

/-- `api/paragraph_tools.get_paragraph_text`: resolves the path, constructs
a `ParagraphHandler` (which opens the document), reads the paragraph, and
catches ONLY `ParagraphError`. -/
def api_get_paragraph_text (fs : FS) (document_name : String)
    (paragraph_index section_index : Int) (doc_files_path : String) :
    ToolOutcome ParaTextResult :=
  let body : Except Err ParaTextResult := do
    let doc_path ← get_doc_path document_name doc_files_path
    let doc ← baseHandlerInit fs doc_path
    get_paragraph_text doc paragraph_index section_index
  match body with
  | .ok r =>
      .returns { success := true
                 message := "Paragraph text retrieved successfully"
                 data := some r }
  | .error (.paragraphError m _) =>
      .returns { success := false
                 message := m
                 error := some { code := "PARAGRAPH_TEXT_ERROR"
                                 typ := "ParagraphError"
                                 details := m
                                 suggestion := "Please check if the paragraph index and section index are valid." } }
  | .error e => .raised e

/-- The `except ConversionError` clause shared by the conversion tools:
envelope a `ConversionError`, let anything else propagate. -/
def convCatch (code suggestion : String) (e : Err) : ToolOutcome α :=
  match e with
  | .conversionError m _ =>
      .returns { success := false
                 message := m
                 error := some { code := code
                                 typ := "ConversionError"
                                 details := m
                                 suggestion := suggestion } }
  | _ => .raised e

/-- `api/conversion_tools.convert_document`: resolves the path, constructs
a FRESH `ConversionHandler` for this single call, converts, and catches
only `ConversionError`.  The handler (with its history) is discarded when
the call returns. -/
def api_convert_document (fs : FS) (document_name target_format : String)
    (output_path : Option String) (doc_files_path : String) (now : String) :
    ToolOutcome ConvOkResult :=
  match get_doc_path document_name doc_files_path with
  | .error e => convCatch "CONVERSION_ERROR"
      "Please check if the document exists and the target format is supported." e
  | .ok doc_path =>
      let handler : ConvState := { doc_path := some doc_path }
      match (convert_document handler fs target_format output_path now).2 with
      | .ok r =>
          .returns { success := true
                     message := "Document converted successfully"
                     data := some r }
      | .error e => convCatch "CONVERSION_ERROR"
          "Please check if the document exists and the target format is supported." e

/-- `api/conversion_tools.get_conversion_history`: constructs a FRESH
`ConversionHandler` (whose history is empty) and returns its history. -/
def api_get_conversion_history (_fs : FS) (document_name : String)
    (doc_files_path : String) : ToolOutcome ConvHistoryResult :=
  match get_doc_path document_name doc_files_path with
  | .error e => convCatch "CONVERSION_HISTORY_ERROR" "Please check if the document exists." e
  | .ok doc_path =>
      let handler : ConvState := { doc_path := some doc_path }
      .returns { success := true
                 message := "Conversion history retrieved successfully"
                 data := some (get_conversion_history handler) }

/-- `api/conversion_tools.get_conversion_status`: likewise built on a fresh
handler, so the returned status is always the initial empty dictionary. -/
def api_get_conversion_status (_fs : FS) (document_name : String)
    (doc_files_path : String) : ToolOutcome (Option ConvRecord) :=
  match get_doc_path document_name doc_files_path with
  | .error e => convCatch "CONVERSION_STATUS_ERROR" "Please check if the document exists." e
  | .ok doc_path =>
      let handler : ConvState := { doc_path := some doc_path }
      .returns { success := true
                 message := "Conversion status retrieved successfully"
                 data := some (get_conversion_status handler) }

/-! ## Concrete fixtures -/

/-- A freshly created, still empty document: one section, no content
(engine contract for `create_document` followed by a reload). -/
def emptyDoc : Document := { sections := [{}] }

/-- A document with one section holding one paragraph. -/
def docOne : Document := { sections := [{ paragraphs := [{ text := "Hello world" }] }] }

/-- A filesystem holding `docOne` at the default resolved path of
`a.docx`. -/
def fsA : FS := fun p => if p = "./word_files/a.docx" then some docOne else none

/-- The empty filesystem: no file exists. -/
def fsNone : FS := fun _ => none

example :
    api_get_paragraph_text fsNone "a.docx" 0 0 "./word_files" =
      .raised (.documentError "Document file not found: ./word_files/a.docx"
        "DOC_LOAD_ERROR") := by decide

example :
    (api_get_conversion_history fsA "a.docx" "./word_files") =
      .returns { success := true
                 message := "Conversion history retrieved successfully"
                 data := some { history := [], total_conversions := 0 } } := by decide

/-! ## General lemmas about the `Except` embedding -/

theorem exceptCases (r : Except Err α) : (∃ v, r = .ok v) ∨ (∃ e, r = .error e) := by
  cases r with
  | ok v => exact .inl ⟨v, rfl⟩
  | error e => exact .inr ⟨e, rfl⟩

theorem bind_ok_left {a : Except Err Unit} {f : Unit → Except Err α}
    (h : a = .ok ()) : (a >>= f) = f () := by
  subst h; rfl

theorem bind_eq_ok {a : Except Err α} {f : α → Except Err β} {v : β}
    (h : (a >>= f) = .ok v) : ∃ u, a = .ok u ∧ f u = .ok v := by
  cases a with
  | ok u => exact ⟨u, rfl, h⟩
  | error e => exact absurd h (by simp [Bind.bind, Except.bind])

theorem wrapParagraph_err {r : Except Err α} {pm : String} {e : Err}
    (h : r = .error e) :
    wrapParagraph pm r = .error (.paragraphError (pm ++ e.message) "PARA_CREATE_ERROR") := by
  subst h; rfl

theorem wrapParagraph_ok {r : Except Err α} {pm : String} {a : α} (h : r = .ok a) :
    wrapParagraph pm r = .ok a := by
  subst h; rfl

theorem wrapParagraph_ok_inv {r : Except Err α} {pm : String} {a : α}
    (h : wrapParagraph pm r = .ok a) : r = .ok a := by
  cases r with
  | ok v => simpa [wrapParagraph] using h
  | error e => simp [wrapParagraph] at h

theorem wrapParagraph_err_shape {r : Except Err α} {pm : String} {e : Err}
    (h : wrapParagraph pm r = .error e) : ∃ m, e = .paragraphError m "PARA_CREATE_ERROR" := by
  cases r with
  | ok v => simp [wrapParagraph] at h
  | error e' =>
      simp only [wrapParagraph, Except.error.injEq] at h
      exact ⟨pm ++ e'.message, h.symm⟩

theorem wrapTableKeep_ok_inv {r : Except Err α} {pm c : String} {a : α}
    (h : wrapTableKeep pm c r = .ok a) : r = .ok a := by
  cases r with
  | ok v => simpa [wrapTableKeep] using h
  | error e => cases e <;> simp [wrapTableKeep] at h

theorem wrapTableKeep_err_shape {r : Except Err α} {pm c : String} {e : Err}
    (h : wrapTableKeep pm c r = .error e) : ∃ m c', e = .tableError m c' := by
  cases r with
  | ok v => simp [wrapTableKeep] at h
  | error e' =>
      cases e' <;> simp only [wrapTableKeep, Except.error.injEq] at h <;>
        exact ⟨_, _, h.symm⟩

theorem wrapDocumentKeep_err_shape {r : Except Err α} {pm : String} {e : Err}
    (h : wrapDocumentKeep pm r = .error e) : ∃ m c, e = .documentError m c := by
  cases r with
  | ok v => simp [wrapDocumentKeep] at h
  | error e' =>
      cases e' <;> simp only [wrapDocumentKeep, Except.error.injEq] at h <;>
        exact ⟨_, _, h.symm⟩

theorem wrapTableKeep_err {r : Except Err α} {pm c : String} {e : Err}
    (h : r = .error e) :
    wrapTableKeep pm c r = (match e with
      | .tableError m c' => .error (.tableError m c')
      | e' => .error (.tableError (pm ++ e'.message) c)) := by
  subst h; cases e <;> rfl

/-! ## Validation lemmas -/

theorem validateSectionIndex_ok {doc : Document} {s : Int}
    (h0 : 0 ≤ s) (h1 : s < (doc.sections.length : Int)) :
    validateSectionIndex doc s = .ok () := by
  unfold validateSectionIndex
  rw [if_neg (by omega), if_neg (by omega)]

theorem validateParagraphIndex_ok {doc : Document} {sec : Section} {p s : Int}
    (hs : doc.sections.get? s.toNat = some sec)
    (h0 : 0 ≤ s) (h1 : s < (doc.sections.length : Int))
    (hp0 : 0 ≤ p) (hp1 : p < (sec.paragraphs.length : Int)) :
    validateParagraphIndex doc p s = .ok () := by
  unfold validateParagraphIndex
  rw [bind_ok_left (validateSectionIndex_ok h0 h1)]
  rw [if_neg (by omega)]
  simp only [hs]
  rw [if_neg (by omega)]
  rfl

theorem validateParagraphIndex_oob {doc : Document} {sec : Section} {p s : Int}
    (hs : doc.sections.get? s.toNat = some sec)
    (h0 : 0 ≤ s) (h1 : s < (doc.sections.length : Int))
    (hp0 : 0 ≤ p) (hp1 : (sec.paragraphs.length : Int) ≤ p) :
    ∃ m, validateParagraphIndex doc p s = .error (.documentError m "DOC_LOAD_ERROR") := by
  unfold validateParagraphIndex
  rw [bind_ok_left (validateSectionIndex_ok h0 h1)]
  rw [if_neg (by omega)]
  simp only [hs]
  rw [if_pos (by omega)]
  exact ⟨_, rfl⟩

/-! ## `ParagraphHandler` lemmas -/

theorem get?_some_length {l : List α} {n : Nat} {a : α} (h : l.get? n = some a) :
    n < l.length := by
  rcases List.get?_eq_some.mp h with ⟨hlt, _⟩
  exact hlt

theorem get_paragraph_text_ok {doc : Document} {sec : Section} {para : Para} {p s : Int}
    (hs : doc.sections.get? s.toNat = some sec)
    (h0 : 0 ≤ s) (hp0 : 0 ≤ p)
    (hp : sec.paragraphs.get? p.toNat = some para) :
    get_paragraph_text doc p s =
      .ok { section_index := s
            paragraph_index := p
            text := para.text
            text_length := para.text.length
            has_text := hasContent para.text
            word_count := countWords para.text
            line_count := countLines para.text } := by
  have h1 : s < (doc.sections.length : Int) := by
    have := get?_some_length hs; omega
  have hp1 : p < (sec.paragraphs.length : Int) := by
    have := get?_some_length hp; omega
  unfold get_paragraph_text
  apply wrapParagraph_ok
  rw [bind_ok_left (validateParagraphIndex_ok hs h0 h1 hp0 hp1)]
  simp only [hs, hp]
  rfl

theorem get_paragraph_text_oob {doc : Document} {sec : Section} {p s : Int}
    (hs : doc.sections.get? s.toNat = some sec)
    (h0 : 0 ≤ s) (hp0 : 0 ≤ p)
    (hp1 : (sec.paragraphs.length : Int) ≤ p) :
    ∃ m, get_paragraph_text doc p s = .error (.paragraphError m "PARA_CREATE_ERROR") := by
  have h1 : s < (doc.sections.length : Int) := by
    have := get?_some_length hs; omega
  obtain ⟨m, hm⟩ := validateParagraphIndex_oob hs h0 h1 hp0 hp1
  refine ⟨"Failed to get paragraph text: " ++ m, ?_⟩
  unfold get_paragraph_text
  rw [wrapParagraph_err (e := .documentError m "DOC_LOAD_ERROR")]
  · rfl
  · show (validateParagraphIndex doc p s >>= _) = _
    rw [hm]; rfl

theorem exceptThrow (e : Err) : (throw e : Except Err α) = .error e := rfl

theorem exceptPure (v : α) : (pure v : Except Err α) = .ok v := rfl

/-! ## List helper lemmas -/

theorem listInsertAt_length (n : Nat) (a : α) (l : List α) :
    (listInsertAt n a l).length = l.length + 1 := by
  induction n generalizing l with
  | zero => rfl
  | succ n ih =>
      cases l with
      | nil => rfl
      | cons x xs => simp [listInsertAt, ih]

theorem listInsertAt_get_self (n : Nat) (a : α) (l : List α) (h : n ≤ l.length) :
    (listInsertAt n a l).get? n = some a := by
  induction n generalizing l with
  | zero => rfl
  | succ n ih =>
      cases l with
      | nil => simp at h
      | cons x xs =>
          simp only [listInsertAt, List.get?]
          exact ih xs (by simpa using h)

theorem eraseIdx_get?_ge (l : List α) (i j : Nat) (hij : i ≤ j) :
    (l.eraseIdx i).get? j = l.get? (j + 1) := by
  induction l generalizing i j with
  | nil => simp [List.eraseIdx]
  | cons x xs ih =>
      cases i with
      | zero => simp [List.eraseIdx]
      | succ i' =>
          cases j with
          | zero => omega
          | succ j' =>
              simp only [List.eraseIdx, List.get?]
              exact ih i' j' (by omega)

theorem set_get?_self (l : List α) (n : Nat) (a : α) (h : n < l.length) :
    (l.set n a).get? n = some a := by
  induction l generalizing n with
  | nil => simp at h
  | cons x xs ih =>
      cases n with
      | zero => rfl
      | succ n' => simpa [List.set, List.get?] using ih n' (by simpa using h)

/-! ## Claim C9 -/

/-- Claim C9: every successful invocation of `find_and_replace` (success
being exactly a non-empty search text) reports `replacements = 1`,
whatever document it ran on and however many occurrences — including
zero — the search text has there. -/
theorem c9_find_and_replace_always_one (doc : Document) (find_text replace_text : String)
    (match_case match_whole_word : Bool) (h : find_text ≠ "") :
    ∃ pr, find_and_replace doc find_text replace_text match_case match_whole_word = .ok pr ∧
      pr.2.replacements = 1 := by
  refine ⟨(engineReplace doc find_text replace_text,
    { success := true
      message := "Text replacement completed successfully"
      replacements := 1
      find_text := find_text
      replace_text := replace_text
      match_case := match_case
      match_whole_word := match_whole_word }), ?_, rfl⟩
  unfold find_and_replace
  rw [if_neg h]
  rfl

/-- Witness for C9 at a concrete document and search text (the text
"Goodbye" does not occur in `docOne` at all, yet 1 is reported). -/
theorem c9_witness :
    ∃ pr, find_and_replace docOne "Goodbye" "Farewell" false false = .ok pr ∧
      pr.2.replacements = 1 :=
  c9_find_and_replace_always_one docOne "Goodbye" "Farewell" false false (by decide)

/-! ## Claim C6 -/

theorem ok_bind (u : α) (f : α → Except Err β) : (Except.ok u >>= f) = f u := rfl

theorem error_bind (e : Err) (f : α → Except Err β) :
    ((Except.error e : Except Err α) >>= f) = .error e := rfl

theorem wrapTableKeep_err_ex {r : Except Err α} (pm c : String) {e₀ : Err}
    (h : r = .error e₀) : ∃ e, wrapTableKeep pm c r = .error e := by
  subst h; cases e₀ <;> exact ⟨_, rfl⟩

theorem create_table_bad_dims_err (doc : Document) (rows columns section_index : Int)
    (pi : Option Int) (style : Option String)
    (hbad : rows ≤ 0 ∨ 1000 < rows ∨ columns ≤ 0 ∨ 100 < columns) :
    ∃ e, create_table doc rows columns section_index pi style = .error e := by
  unfold create_table
  rcases exceptCases (validateSectionIndex doc section_index) with ⟨⟨⟩, hv⟩ | ⟨e, hv⟩
  swap
  · rw [hv, error_bind]; exact wrapTableKeep_err_ex _ _ rfl
  rw [hv, ok_bind]
  cases hsec : doc.sections.get? section_index.toNat with
  | none => simp only [hsec]; exact wrapTableKeep_err_ex _ _ rfl
  | some sec =>
      simp only [hsec]
      rcases exceptCases (validateOptionalParagraphIndex doc pi section_index) with
        ⟨⟨⟩, hvp⟩ | ⟨e, hvp⟩
      · rw [hvp, ok_bind]
        by_cases h1 : rows ≤ 0 ∨ columns ≤ 0
        · rw [if_pos h1]; exact wrapTableKeep_err_ex _ _ rfl
        · rw [if_neg h1, if_pos (by omega)]; exact wrapTableKeep_err_ex _ _ rfl
      · rw [hvp, error_bind]; exact wrapTableKeep_err_ex _ _ rfl

theorem create_table_ok_bounds {doc : Document} {rows columns section_index : Int}
    {pi : Option Int} {style : Option String} {pr : Document × CreateTableResult}
    (h : create_table doc rows columns section_index pi style = .ok pr) :
    1 ≤ rows ∧ rows ≤ 1000 ∧ 1 ≤ columns ∧ columns ≤ 100 := by
  by_contra hc
  obtain ⟨e, he⟩ := create_table_bad_dims_err doc rows columns section_index pi style (by omega)
  rw [h] at he
  exact Except.noConfusion he

theorem create_table_dim_error {doc : Document} {sec : Section}
    {rows columns section_index : Int} {style : Option String}
    (hs : doc.sections.get? section_index.toNat = some sec) (h0 : 0 ≤ section_index)
    (hbad : rows ≤ 0 ∨ 1000 < rows ∨ columns ≤ 0 ∨ 100 < columns) :
    create_table doc rows columns section_index none style =
      .error (.tableError
        (if rows ≤ 0 ∨ columns ≤ 0 then "Table dimensions must be positive"
         else "Table dimensions too large (max: 1000 rows, 100 columns)")
        "TABLE_CREATE_ERROR") := by
  have h1 : section_index < (doc.sections.length : Int) := by
    have := get?_some_length hs; omega
  unfold create_table
  rw [bind_ok_left (validateSectionIndex_ok h0 h1)]
  simp only [hs]
  rw [bind_ok_left (rfl : validateOptionalParagraphIndex doc none section_index = .ok ())]
  by_cases hp : rows ≤ 0 ∨ columns ≤ 0
  · rw [if_pos hp, if_pos hp]; rfl
  · rw [if_neg hp, if_neg hp, if_pos (by omega)]; rfl

/-- Claim C6: `create_table` succeeds only for `rows` in 1..1000 and
`columns` in 1..100 (first conjunct); any dimensions outside those ranges
make it fail — the error is returned instead of a saved document, so no
table is added (second conjunct); and under a valid section index the
failure is precisely the dimension `TableError` raised before any engine
call (third conjunct). -/
theorem c6_create_table_dimension_bounds :
    (∀ (doc : Document) (rows columns section_index : Int) (pi : Option Int)
       (style : Option String) (pr : Document × CreateTableResult),
       create_table doc rows columns section_index pi style = .ok pr →
       1 ≤ rows ∧ rows ≤ 1000 ∧ 1 ≤ columns ∧ columns ≤ 100) ∧
    (∀ (doc : Document) (rows columns section_index : Int) (pi : Option Int)
       (style : Option String),
       (rows ≤ 0 ∨ 1000 < rows ∨ columns ≤ 0 ∨ 100 < columns) →
       ∃ e, create_table doc rows columns section_index pi style = .error e) ∧
    (∀ (doc : Document) (sec : Section) (rows columns section_index : Int)
       (style : Option String),
       doc.sections.get? section_index.toNat = some sec → 0 ≤ section_index →
       (rows ≤ 0 ∨ 1000 < rows ∨ columns ≤ 0 ∨ 100 < columns) →
       create_table doc rows columns section_index none style =
         .error (.tableError
           (if rows ≤ 0 ∨ columns ≤ 0 then "Table dimensions must be positive"
            else "Table dimensions too large (max: 1000 rows, 100 columns)")
           "TABLE_CREATE_ERROR")) := by
  refine ⟨fun _ _ _ _ _ _ _ h => create_table_ok_bounds h, ?_, ?_⟩
  · intro doc rows columns section_index pi style hbad
    rcases exceptCases (create_table doc rows columns section_index pi style) with
      ⟨pr, hok⟩ | ⟨e, he⟩
    · have := create_table_ok_bounds hok; omega
    · exact ⟨e, he⟩
  · intro doc sec rows columns section_index style hs h0 hbad
    exact create_table_dim_error hs h0 hbad

/-- Witness for C6: a zero-row request on the one-section empty document
fails with the dimension error before anything is added. -/
theorem c6_witness :
    create_table emptyDoc 0 5 0 none none =
      .error (.tableError "Table dimensions must be positive" "TABLE_CREATE_ERROR") := by
  have h := c6_create_table_dimension_bounds.2.2 emptyDoc {} 0 5 0 none (by decide)
    (by decide) (by left; decide)
  simpa using h

/-- The document with section `sidx` replaced by `sec` with a new table
collection (shape of every table-mutating save). -/
def setSectionTables (doc : Document) (sidx : Nat) (sec : Section)
    (tables : List DocTable) : Document :=
  { doc with sections := doc.sections.set sidx { sec with tables := tables } }

/-- The document with section `sidx` replaced by `sec` with a new paragraph
collection (shape of every paragraph-mutating save). -/
def setSectionParagraphs (doc : Document) (sidx : Nat) (sec : Section)
    (paragraphs : List Para) : Document :=
  { doc with sections := doc.sections.set sidx { sec with paragraphs := paragraphs } }

/-! ## Claim C10 -/

theorem insertTableAt_length (t : List DocTable) (tbl : DocTable) (pi : Option Int) :
    (insertTableAt t tbl pi).length = t.length + 1 := by
  cases pi <;> simp [insertTableAt, listInsertAt_length]

theorem create_table_ok_shape {doc : Document} {rows columns section_index : Int}
    {pi : Option Int} {style : Option String} {pr : Document × CreateTableResult}
    (h : create_table doc rows columns section_index pi style = .ok pr) :
    pr.2.table_index = pr.2.total_tables_in_section - 1 ∧
    pr.2.total_tables_in_section = pr.2.table_index + 1 := by
  have hb := wrapTableKeep_ok_inv h
  rcases exceptCases (validateSectionIndex doc section_index) with ⟨⟨⟩, hv⟩ | ⟨e, hv⟩
  swap
  · rw [hv, error_bind] at hb; exact Except.noConfusion hb
  rw [hv, ok_bind] at hb
  cases hsec : doc.sections.get? section_index.toNat with
  | none =>
      simp only [hsec, exceptThrow] at hb
      exact Except.noConfusion hb
  | some sec =>
      simp only [hsec] at hb
      rcases exceptCases (validateOptionalParagraphIndex doc pi section_index) with
        ⟨⟨⟩, hvp⟩ | ⟨e, hvp⟩
      swap
      · rw [hvp, error_bind] at hb; exact Except.noConfusion hb
      rw [hvp, ok_bind] at hb
      by_cases h1 : rows ≤ 0 ∨ columns ≤ 0
      · rw [if_pos h1] at hb; exact absurd hb (by simp [exceptThrow])
      rw [if_neg h1] at hb
      by_cases h2 : rows > 1000 ∨ columns > 100
      · rw [if_pos h2] at hb; exact absurd hb (by simp [exceptThrow])
      rw [if_neg h2, exceptPure] at hb
      obtain rfl := (Except.ok.inj hb)
      constructor <;> simp [insertTableAt_length]

theorem create_table_some_ok {doc : Document} {sec : Section}
    {rows columns section_index i : Int} {style : Option String}
    (hs : doc.sections.get? section_index.toNat = some sec) (h0 : 0 ≤ section_index)
    (hp0 : 0 ≤ i) (hp1 : i < (sec.paragraphs.length : Int))
    (hr1 : 1 ≤ rows) (hr2 : rows ≤ 1000) (hc1 : 1 ≤ columns) (hc2 : columns ≤ 100) :
    ∃ res, create_table doc rows columns section_index (some i) style =
      .ok (setSectionTables doc section_index.toNat sec
            (listInsertAt (min (i.toNat + 1) sec.tables.length)
              (mkEngineTable rows.toNat columns.toNat) sec.tables), res) ∧
      res.table_index = sec.tables.length ∧
      res.total_tables_in_section = sec.tables.length + 1 := by
  have h1 : section_index < (doc.sections.length : Int) := by
    have := get?_some_length hs; omega
  unfold create_table
  rw [bind_ok_left (validateSectionIndex_ok h0 h1)]
  simp only [hs]
  rw [bind_ok_left
    (show validateOptionalParagraphIndex doc (some i) section_index = .ok () from
      validateParagraphIndex_ok hs h0 h1 hp0 hp1)]
  rw [if_neg (by omega), if_neg (by omega)]
  refine ⟨_, rfl, ?_, ?_⟩ <;>
    simp [insertTableAt, insertTableAt_length, listInsertAt_length]

/-- A 2-by-2 engine table fixture. -/
def tblA : DocTable := mkEngineTable 2 2

/-- A 3-by-3 engine table fixture. -/
def tblB : DocTable := mkEngineTable 3 3

/-- One section with one paragraph and two existing tables. -/
def docTwoTables : Document :=
  { sections := [{ paragraphs := [{}], tables := [tblA, tblB] }] }

/-- Claim C10: every successful `create_table` reports
`table_index = total_tables_in_section - 1` (first conjunct); with a
supplied `paragraph_index` the table is inserted into the collection at
`min(paragraph_index + 1, previous count)` while `table_index` reports the
previous count (second conjunct); and on a concrete document with two
existing tables the reported index 2 names an OLD table while the created
1-by-1 table sits at position 1 (third conjunct). -/
theorem c10_create_table_reported_index :
    (∀ (doc : Document) (rows columns section_index : Int) (pi : Option Int)
       (style : Option String) (pr : Document × CreateTableResult),
       create_table doc rows columns section_index pi style = .ok pr →
       pr.2.table_index = pr.2.total_tables_in_section - 1) ∧
    (∀ (doc : Document) (sec : Section) (rows columns section_index i : Int)
       (style : Option String),
       doc.sections.get? section_index.toNat = some sec → 0 ≤ section_index →
       0 ≤ i → i < (sec.paragraphs.length : Int) →
       1 ≤ rows → rows ≤ 1000 → 1 ≤ columns → columns ≤ 100 →
       ∃ res, create_table doc rows columns section_index (some i) style =
         .ok (setSectionTables doc section_index.toNat sec
               (listInsertAt (min (i.toNat + 1) sec.tables.length)
                 (mkEngineTable rows.toNat columns.toNat) sec.tables), res) ∧
         res.table_index = sec.tables.length ∧
         res.total_tables_in_section = sec.tables.length + 1) ∧
    ((match create_table docTwoTables 1 1 0 (some 0) none with
      | .ok (d', res) =>
          (res.table_index == 2) &&
          (match d'.sections.get? 0 with
           | some sec =>
               (sec.tables.get? 1 == some (mkEngineTable 1 1)) &&
               !(sec.tables.get? 2 == some (mkEngineTable 1 1))
           | none => false)
      | .error _ => false) = true) := by
  refine ⟨fun _ _ _ _ _ _ _ h => (create_table_ok_shape h).1, ?_, by decide⟩
  intro doc sec rows columns section_index i style hs h0 hp0 hp1 hr1 hr2 hc1 hc2
  exact create_table_some_ok hs h0 hp0 hp1 hr1 hr2 hc1 hc2

/-- Witness for C10 at concrete input: inserting a 1-by-1 table after
paragraph 0 of the two-table fixture. -/
theorem c10_witness :
    ∃ res, create_table docTwoTables 1 1 0 (some 0) none =
      .ok (setSectionTables docTwoTables 0 { paragraphs := [{}], tables := [tblA, tblB] }
            (listInsertAt (min 1 2) (mkEngineTable 1 1) [tblA, tblB]), res) ∧
      res.table_index = 2 ∧ res.total_tables_in_section = 3 :=
  c10_create_table_reported_index.2.1 docTwoTables
    { paragraphs := [{}], tables := [tblA, tblB] } 1 1 0 0 none (by decide) (by decide)
    (by decide) (by decide) (by decide) (by decide) (by decide) (by decide)

/-! ## Claim C5 -/

theorem add_paragraph_some_ok {doc : Document} {sec : Section} {text : String} {s i : Int}
    (hs : doc.sections.get? s.toNat = some sec) (h0 : 0 ≤ s)
    (hi0 : 0 ≤ i) (hi1 : i ≤ (sec.paragraphs.length : Int)) :
    add_paragraph doc text s (some i) =
      .ok (setSectionParagraphs doc s.toNat sec
            (listInsertAt i.toNat { text := text } sec.paragraphs),
          { section_index := s
            paragraph_index := i
            text := text
            text_length := text.length
            word_count := countWords text
            total_paragraphs_in_section :=
              (listInsertAt i.toNat { text := text } sec.paragraphs).length }) := by
  have h1 : s < (doc.sections.length : Int) := by
    have := get?_some_length hs; omega
  unfold add_paragraph
  apply wrapParagraph_ok
  rw [bind_ok_left (validateSectionIndex_ok h0 h1)]
  simp only [hs]
  rw [if_neg (by omega)]
  rfl

theorem add_paragraph_some_oob {doc : Document} {sec : Section} {text : String} {s i : Int}
    (hs : doc.sections.get? s.toNat = some sec) (h0 : 0 ≤ s)
    (hbad : i < 0 ∨ (sec.paragraphs.length : Int) < i) :
    add_paragraph doc text s (some i) =
      .error (.paragraphError
        ("Failed to add paragraph: " ++ ("Invalid paragraph index: " ++ toString i))
        "PARA_CREATE_ERROR") := by
  have h1 : s < (doc.sections.length : Int) := by
    have := get?_some_length hs; omega
  unfold add_paragraph
  rw [bind_ok_left (validateSectionIndex_ok h0 h1)]
  simp only [hs]
  rw [if_pos (by omega), exceptThrow]
  exact wrapParagraph_err rfl

theorem add_paragraph_none_ok {doc : Document} {sec : Section} {text : String} {s : Int}
    (hs : doc.sections.get? s.toNat = some sec) (h0 : 0 ≤ s) :
    ∃ res, add_paragraph doc text s none =
      .ok (setSectionParagraphs doc s.toNat sec (sec.paragraphs ++ [{ text := text }]), res) ∧
      res.paragraph_index = (sec.paragraphs.length : Int) ∧
      res.total_paragraphs_in_section = sec.paragraphs.length + 1 := by
  have h1 : s < (doc.sections.length : Int) := by
    have := get?_some_length hs; omega
  unfold add_paragraph
  refine ⟨{ section_index := s
            paragraph_index :=
              ((sec.paragraphs ++ [({ text := text } : Para)]).length : Int) - 1
            text := text
            text_length := text.length
            word_count := countWords text
            total_paragraphs_in_section :=
              (sec.paragraphs ++ [({ text := text } : Para)]).length },
          wrapParagraph_ok ?_, ?_, ?_⟩
  · rw [bind_ok_left (validateSectionIndex_ok h0 h1)]
    simp only [hs]
    rfl
  · simp
  · simp

/-- Claim C5: `add_paragraph` with an explicit index accepts exactly
0 ≤ index ≤ current count, inserts the paragraph at that position, returns
that index, and a read-back at the index yields the inserted text (first
conjunct); an index outside the range is rejected (second conjunct);
without an index the paragraph is appended and the returned index is the
old count (third conjunct); and the concrete scenario — add "Hello" at the
default position, add "World" at index 0, then read paragraphs 0 and 1 —
yields "World" then "Hello" (fourth conjunct). -/
theorem c5_add_paragraph_positions :
    (∀ (doc : Document) (sec : Section) (text : String) (s i : Int),
       doc.sections.get? s.toNat = some sec → 0 ≤ s →
       0 ≤ i → i ≤ (sec.paragraphs.length : Int) →
       add_paragraph doc text s (some i) =
         .ok (setSectionParagraphs doc s.toNat sec
               (listInsertAt i.toNat { text := text } sec.paragraphs),
             { section_index := s
               paragraph_index := i
               text := text
               text_length := text.length
               word_count := countWords text
               total_paragraphs_in_section :=
                 (listInsertAt i.toNat { text := text } sec.paragraphs).length }) ∧
       (∃ r, get_paragraph_text (setSectionParagraphs doc s.toNat sec
               (listInsertAt i.toNat { text := text } sec.paragraphs)) i s = .ok r ∧
          r.text = text)) ∧
    (∀ (doc : Document) (sec : Section) (text : String) (s i : Int),
       doc.sections.get? s.toNat = some sec → 0 ≤ s →
       (i < 0 ∨ (sec.paragraphs.length : Int) < i) →
       add_paragraph doc text s (some i) =
         .error (.paragraphError
           ("Failed to add paragraph: " ++ ("Invalid paragraph index: " ++ toString i))
           "PARA_CREATE_ERROR")) ∧
    (∀ (doc : Document) (sec : Section) (text : String) (s : Int),
       doc.sections.get? s.toNat = some sec → 0 ≤ s →
       ∃ res, add_paragraph doc text s none =
         .ok (setSectionParagraphs doc s.toNat sec (sec.paragraphs ++ [{ text := text }]),
           res) ∧
         res.paragraph_index = (sec.paragraphs.length : Int) ∧
         res.total_paragraphs_in_section = sec.paragraphs.length + 1) ∧
    ((do
        let pr1 ← add_paragraph emptyDoc "Hello" 0 none
        let pr2 ← add_paragraph pr1.1 "World" 0 (some 0)
        let t0 ← get_paragraph_text pr2.1 0 0
        let t1 ← get_paragraph_text pr2.1 1 0
        pure (pr2.2.paragraph_index, t0.text, t1.text) : Except Err (Int × String × String))
      = .ok (0, "World", "Hello")) := by
  refine ⟨?_, ?_, ?_, by decide⟩
  · intro doc sec text s i hs h0 hi0 hi1
    refine ⟨add_paragraph_some_ok hs h0 hi0 hi1, ?_⟩
    have hs' : (setSectionParagraphs doc s.toNat sec
        (listInsertAt i.toNat { text := text } sec.paragraphs)).sections.get? s.toNat =
        some { sec with paragraphs := listInsertAt i.toNat { text := text } sec.paragraphs } := by
      unfold setSectionParagraphs
      exact set_get?_self _ _ _ (get?_some_length hs)
    have hp : ({ sec with
        paragraphs := listInsertAt i.toNat { text := text } sec.paragraphs } :
        Section).paragraphs.get? i.toNat = some { text := text } :=
      listInsertAt_get_self _ _ _ (by omega)
    exact ⟨_, get_paragraph_text_ok hs' h0 hi0 hp, rfl⟩
  · intro doc sec text s i hs h0 hbad
    exact add_paragraph_some_oob hs h0 hbad
  · intro doc sec text s hs h0
    exact add_paragraph_none_ok hs h0

/-- Witness for C5: inserting "New" at index 0 of the one-paragraph
fixture document. -/
theorem c5_witness :
    add_paragraph docOne "New" 0 (some 0) =
      .ok (setSectionParagraphs docOne 0 { paragraphs := [{ text := "Hello world" }] }
            (listInsertAt 0 { text := "New" } [{ text := "Hello world" }]),
          { section_index := 0
            paragraph_index := 0
            text := "New"
            text_length := "New".length
            word_count := countWords "New"
            total_paragraphs_in_section := 2 }) ∧
    (∃ r, get_paragraph_text (setSectionParagraphs docOne 0
            { paragraphs := [{ text := "Hello world" }] }
            (listInsertAt 0 { text := "New" } [{ text := "Hello world" }])) 0 0 = .ok r ∧
       r.text = "New") :=
  c5_add_paragraph_positions.1 docOne { paragraphs := [{ text := "Hello world" }] }
    "New" 0 0 (by decide) (by decide) (by decide) (by decide)

/-! ## Claim C7 -/

theorem get_paragraphinfo_ok {doc : Document} {sec : Section} {para : Para} {p s : Int}
    (hs : doc.sections.get? s.toNat = some sec)
    (h0 : 0 ≤ s) (hp0 : 0 ≤ p)
    (hp : sec.paragraphs.get? p.toNat = some para) :
    get_paragraphinfo doc p s =
      .ok { section_index := s
            paragraph_index := p
            text := para.text
            text_length := para.text.length
            has_text := hasContent para.text
            alignment := haStr para.format.horizontalAlignment } := by
  have h1 : s < (doc.sections.length : Int) := by
    have := get?_some_length hs; omega
  have hp1 : p < (sec.paragraphs.length : Int) := by
    have := get?_some_length hp; omega
  unfold get_paragraphinfo
  apply wrapParagraph_ok
  rw [bind_ok_left (validateParagraphIndex_ok hs h0 h1 hp0 hp1)]
  simp only [hs, hp]
  rfl

theorem delete_paragraph_ok {doc : Document} {sec : Section} {para : Para} {i s : Int}
    (hs : doc.sections.get? s.toNat = some sec) (h0 : 0 ≤ s) (hi0 : 0 ≤ i)
    (hp : sec.paragraphs.get? i.toNat = some para) :
    delete_paragraph doc i s =
      .ok (setSectionParagraphs doc s.toNat sec (sec.paragraphs.eraseIdx i.toNat),
          { section_index := s, paragraph_index := i, deleted_text := para.text }) := by
  have h1 : s < (doc.sections.length : Int) := by
    have := get?_some_length hs; omega
  have hp1 : i < (sec.paragraphs.length : Int) := by
    have := get?_some_length hp; omega
  unfold delete_paragraph
  apply wrapParagraph_ok
  rw [bind_ok_left (validateParagraphIndex_ok hs h0 h1 hi0 hp1)]
  rw [get_paragraphinfo_ok hs h0 hi0 hp, ok_bind]
  simp only [hs]
  rfl

/-- Claim C7: deleting the paragraph at a valid index `i` returns the text
that was removed and persists the section with that entry erased; for every
index `j ≥ i`, a subsequent read at `j` sees what was previously at `j+1`
when that existed, and fails with the paragraph index error otherwise — all
subsequent indices shift down by one. -/
theorem c7_delete_paragraph_shifts :
    ∀ (doc : Document) (sec : Section) (para : Para) (i s : Int),
      doc.sections.get? s.toNat = some sec → 0 ≤ s → 0 ≤ i →
      sec.paragraphs.get? i.toNat = some para →
      delete_paragraph doc i s =
        .ok (setSectionParagraphs doc s.toNat sec (sec.paragraphs.eraseIdx i.toNat),
            { section_index := s, paragraph_index := i, deleted_text := para.text }) ∧
      (∀ j : Int, i ≤ j →
        (∀ q, sec.paragraphs.get? (j.toNat + 1) = some q →
           ∃ r, get_paragraph_text (setSectionParagraphs doc s.toNat sec
                 (sec.paragraphs.eraseIdx i.toNat)) j s = .ok r ∧ r.text = q.text) ∧
        (sec.paragraphs.get? (j.toNat + 1) = none →
           ∃ m, get_paragraph_text (setSectionParagraphs doc s.toNat sec
                 (sec.paragraphs.eraseIdx i.toNat)) j s =
             .error (.paragraphError m "PARA_CREATE_ERROR"))) := by
  intro doc sec para i s hs h0 hi0 hp
  refine ⟨delete_paragraph_ok hs h0 hi0 hp, ?_⟩
  intro j hij
  have hj0 : 0 ≤ j := le_trans hi0 hij
  have hs' : (setSectionParagraphs doc s.toNat sec
      (sec.paragraphs.eraseIdx i.toNat)).sections.get? s.toNat =
      some { sec with paragraphs := sec.paragraphs.eraseIdx i.toNat } := by
    unfold setSectionParagraphs
    exact set_get?_self _ _ _ (get?_some_length hs)
  have hshift : (sec.paragraphs.eraseIdx i.toNat).get? j.toNat =
      sec.paragraphs.get? (j.toNat + 1) :=
    eraseIdx_get?_ge _ _ _ (by omega)
  constructor
  · intro q hq
    have hget : (sec.paragraphs.eraseIdx i.toNat).get? j.toNat = some q :=
      hshift.trans hq
    exact ⟨_, get_paragraph_text_ok hs' h0 hj0 hget, rfl⟩
  · intro hq
    have hnone : (sec.paragraphs.eraseIdx i.toNat).get? j.toNat = none :=
      hshift.trans hq
    have hlen : (sec.paragraphs.eraseIdx i.toNat).length ≤ j.toNat :=
      List.get?_eq_none.mp hnone
    have hlen' : ((sec.paragraphs.eraseIdx i.toNat).length : Int) ≤ j := by omega
    exact get_paragraph_text_oob hs' h0 hj0 hlen'

/-- A document with one section holding the two paragraphs "A" and "B". -/
def docAB : Document :=
  { sections := [{ paragraphs := [{ text := "A" }, { text := "B" }] }] }

/-- Witness for C7: deleting paragraph 0 of a two-paragraph document
returns "A", a read at 0 now sees "B", and a read at 1 fails. -/
theorem c7_witness :
    delete_paragraph docAB 0 0 =
      .ok (setSectionParagraphs docAB 0
            { paragraphs := [{ text := "A" }, { text := "B" }] }
            ([({ text := "A" } : Para), { text := "B" }].eraseIdx 0),
          { section_index := 0, paragraph_index := 0, deleted_text := "A" }) ∧
    (∃ r, get_paragraph_text (setSectionParagraphs docAB 0
            { paragraphs := [{ text := "A" }, { text := "B" }] }
            ([({ text := "A" } : Para), { text := "B" }].eraseIdx 0)) 0 0 = .ok r ∧
       r.text = "B") ∧
    (∃ m, get_paragraph_text (setSectionParagraphs docAB 0
            { paragraphs := [{ text := "A" }, { text := "B" }] }
            ([({ text := "A" } : Para), { text := "B" }].eraseIdx 0)) 1 0 =
        .error (.paragraphError m "PARA_CREATE_ERROR")) := by
  have h := c7_delete_paragraph_shifts docAB
    { paragraphs := [{ text := "A" }, { text := "B" }] } { text := "A" } 0 0
    (by decide) (by decide) (by decide) (by decide)
  refine ⟨h.1, ?_, ?_⟩
  · exact (h.2 0 (by decide)).1 { text := "B" } (by decide)
  · exact (h.2 1 (by decide)).2 (by decide)

/-! ## Claim C8 -/

theorem wrapTableKeep_ok {r : Except Err α} {pm c : String} {a : α} (h : r = .ok a) :
    wrapTableKeep pm c r = .ok a := by
  subst h; rfl

theorem wrapTableKeep_table_err {pm c m c' : String} :
    wrapTableKeep pm c (.error (.tableError m c') : Except Err α) =
      .error (.tableError m c') := rfl

theorem get_table_info_ok {doc : Document} {sec : Section} {tbl : DocTable} {t s : Int}
    (hs : doc.sections.get? s.toNat = some sec) (h0 : 0 ≤ s) (ht0 : 0 ≤ t)
    (ht : sec.tables.get? t.toNat = some tbl) :
    get_table_info doc t s =
      .ok { table_index := t
            section_index := s
            rows := tbl.rows.length
            columns := rowZeroColumns tbl
            total_cells := tbl.rows.length * rowZeroColumns tbl } := by
  have h1 : s < (doc.sections.length : Int) := by
    have := get?_some_length hs; omega
  have ht1 : t < (sec.tables.length : Int) := by
    have := get?_some_length ht; omega
  unfold get_table_info
  apply wrapTableKeep_ok
  rw [bind_ok_left (validateSectionIndex_ok h0 h1)]
  simp only [hs]
  rw [if_neg (by omega)]
  simp only [ht]
  rfl

/-- Claim C8: `set_cell_text` with a row index outside the table's row
count, or a column index outside row 0's cell count, fails with the cell
`TableError`; the error is returned instead of a saved document, so the
table is unmodified. -/
theorem c8_set_cell_text_bounds :
    ∀ (doc : Document) (sec : Section) (tbl : DocTable) (t row col s : Int)
      (text : String),
      doc.sections.get? s.toNat = some sec → 0 ≤ s → 0 ≤ t →
      sec.tables.get? t.toNat = some tbl →
      (row < 0 ∨ (tbl.rows.length : Int) ≤ row ∨ col < 0 ∨
        (rowZeroColumns tbl : Int) ≤ col) →
      ∃ m, set_cell_text doc t row col text s = .error (.tableError m "TABLE_CELL_ERROR") := by
  intro doc sec tbl t row col s text hs h0 ht0 ht hbad
  unfold set_cell_text
  rw [get_table_info_ok hs h0 ht0 ht, ok_bind]
  dsimp only
  by_cases hr : row < 0 ∨ row ≥ (tbl.rows.length : Int)
  · rw [if_pos hr, exceptThrow, wrapTableKeep_table_err]
    exact ⟨_, rfl⟩
  · rw [if_neg hr, if_pos (by omega), exceptThrow, wrapTableKeep_table_err]
    exact ⟨_, rfl⟩

/-- A document whose only section holds one 3-by-2 table. -/
def docTbl3 : Document := { sections := [{ tables := [mkEngineTable 3 2] }] }

/-- Witness for C8: `set_cell_text(row=5, col=0)` on a 3-row table fails
with the cell error. -/
theorem c8_witness :
    ∃ m, set_cell_text docTbl3 0 5 0 "x" 0 = .error (.tableError m "TABLE_CELL_ERROR") :=
  c8_set_cell_text_bounds docTbl3 { tables := [mkEngineTable 3 2] } (mkEngineTable 3 2)
    0 5 0 0 "x" (by decide) (by decide) (by decide) (by decide)
    (by right; left; decide)

/-! ## Claim C2 -/

/-- A supplied numeric formatting argument the validator must reject:
negative or not a number at all. -/
def badNumeric : Option PyVal → Prop
  | some (.num q) => q < 0
  | some (.nonNum _) => True
  | none => False

/-- A supplied alignment outside `{left, center, right, justify}`. -/
def badAlignment : Option String → Prop
  | some a => ¬ (strLower a = "left" ∨ strLower a = "center" ∨ strLower a = "right"
      ∨ strLower a = "justify")
  | none => False

/-- A supplied line-spacing rule outside `{at_least, exactly, multiple}`. -/
def badRule : Option String → Prop
  | some r => ¬ (strLower r = "at_least" ∨ strLower r = "exactly" ∨ strLower r = "multiple")
  | none => False

theorem checkAlignment_bad {a? : Option String} (h : badAlignment a?) :
    ∃ m, checkAlignment a? = .error (.documentError m "DOC_LOAD_ERROR") := by
  cases a? with
  | none => exact absurd h (by simp [badAlignment])
  | some a =>
      refine ⟨"Invalid alignment: " ++ a ++ ". Valid values: left, center, right, justify", ?_⟩
      simp only [checkAlignment]
      rw [if_neg (show ¬ _ from h)]

theorem checkRule_bad {r? : Option String} (h : badRule r?) :
    ∃ m, checkRule r? = .error (.documentError m "DOC_LOAD_ERROR") := by
  cases r? with
  | none => exact absurd h (by simp [badRule])
  | some r =>
      refine ⟨"Invalid line spacing rule: " ++ r
        ++ ". Valid values: at_least, exactly, multiple", ?_⟩
      simp only [checkRule]
      rw [if_neg (show ¬ _ from h)]

theorem checkNumeric_bad {v : Option PyVal} (pname : String) (h : badNumeric v) :
    ∃ m, checkNumeric pname v = .error (.documentError m "DOC_LOAD_ERROR") := by
  cases v with
  | none => exact absurd h (by simp [badNumeric])
  | some pv =>
      cases pv with
      | num q =>
          refine ⟨pname ++ " cannot be negative: " ++ toString q, ?_⟩
          simp only [checkNumeric]
          rw [if_pos (show q < 0 from h)]
      | nonNum r => exact ⟨_, rfl⟩

theorem validate_fp_ok_parts {al lsr : Option String} {fli li ri ls bs afs : Option PyVal}
    (h : validate_formatting_parameters al lsr fli li ri ls bs afs = .ok ()) :
    checkAlignment al = .ok () ∧ checkRule lsr = .ok () ∧
    checkNumeric "first_line_indent" fli = .ok () ∧
    checkNumeric "left_indent" li = .ok () ∧
    checkNumeric "right_indent" ri = .ok () ∧
    checkNumeric "line_spacing" ls = .ok () ∧
    checkNumeric "before_spacing" bs = .ok () ∧
    checkNumeric "after_spacing" afs = .ok () := by
  unfold validate_formatting_parameters at h
  obtain ⟨⟨⟩, h1, h⟩ := bind_eq_ok h
  obtain ⟨⟨⟩, h2, h⟩ := bind_eq_ok h
  obtain ⟨⟨⟩, h3, h⟩ := bind_eq_ok h
  obtain ⟨⟨⟩, h4, h⟩ := bind_eq_ok h
  obtain ⟨⟨⟩, h5, h⟩ := bind_eq_ok h
  obtain ⟨⟨⟩, h6, h⟩ := bind_eq_ok h
  obtain ⟨⟨⟩, h7, h⟩ := bind_eq_ok h
  exact ⟨h1, h2, h3, h4, h5, h6, h7, h⟩

theorem wrapDocumentKeep_ok_inv {r : Except Err α} {pm : String} {a : α}
    (h : wrapDocumentKeep pm r = .ok a) : r = .ok a := by
  cases r with
  | ok v => simpa [wrapDocumentKeep] using h
  | error e => cases e <;> simp [wrapDocumentKeep] at h

/-- Claim C2: whenever at least one supplied `format_paragraph` argument is
invalid — a negative or non-numeric value for any of the six numeric
fields, or an alignment / line-spacing rule outside its enumeration — the
call fails with a `DocumentError` and returns no saved document, so no
formatting field of any paragraph changes; all supplied fields are
validated before any mutation is applied. -/
theorem c2_format_paragraph_validates_first :
    ∀ (doc : Document) (p : Int) (alignment : Option String)
      (fli li ri ls : Option PyVal) (lsr : Option String) (bs afs : Option PyVal),
      (badAlignment alignment ∨ badRule lsr ∨ badNumeric fli ∨ badNumeric li ∨
        badNumeric ri ∨ badNumeric ls ∨ badNumeric bs ∨ badNumeric afs) →
      ∃ m c, format_paragraph doc p alignment fli li ri ls lsr bs afs =
        .error (.documentError m c) := by
  intro doc p al fli li ri ls lsr bs afs hbad
  rcases exceptCases (format_paragraph doc p al fli li ri ls lsr bs afs) with
    ⟨pr, hok⟩ | ⟨e, he⟩
  · exfalso
    unfold format_paragraph at hok
    have hb := wrapDocumentKeep_ok_inv hok
    obtain ⟨⟨⟩, hv, hb2⟩ := bind_eq_ok hb
    obtain ⟨⟨⟩, hvf, _⟩ := bind_eq_ok hb2
    obtain ⟨c1, c2, c3, c4, c5, c6, c7, c8⟩ := validate_fp_ok_parts hvf
    rcases hbad with h | h | h | h | h | h | h | h
    · obtain ⟨m, hm⟩ := checkAlignment_bad h; rw [hm] at c1; exact Except.noConfusion c1
    · obtain ⟨m, hm⟩ := checkRule_bad h; rw [hm] at c2; exact Except.noConfusion c2
    · obtain ⟨m, hm⟩ := checkNumeric_bad "first_line_indent" h
      rw [hm] at c3; exact Except.noConfusion c3
    · obtain ⟨m, hm⟩ := checkNumeric_bad "left_indent" h
      rw [hm] at c4; exact Except.noConfusion c4
    · obtain ⟨m, hm⟩ := checkNumeric_bad "right_indent" h
      rw [hm] at c5; exact Except.noConfusion c5
    · obtain ⟨m, hm⟩ := checkNumeric_bad "line_spacing" h
      rw [hm] at c6; exact Except.noConfusion c6
    · obtain ⟨m, hm⟩ := checkNumeric_bad "before_spacing" h
      rw [hm] at c7; exact Except.noConfusion c7
    · obtain ⟨m, hm⟩ := checkNumeric_bad "after_spacing" h
      rw [hm] at c8; exact Except.noConfusion c8
  · unfold format_paragraph at he
    obtain ⟨m, c, rfl⟩ := wrapDocumentKeep_err_shape he
    exact ⟨m, c, by rw [← he]; rfl⟩

/-- Witness for C2: a negative `left_indent` (with every other field
absent) on the fixture document fails with a `DocumentError`. -/
theorem c2_witness :
    ∃ m c, format_paragraph docOne 0 none none (some (.num (-1))) none none none
        none none = .error (.documentError m c) :=
  c2_format_paragraph_validates_first docOne 0 none none (some (.num (-1))) none none
    none none none (by right; right; right; left; show (-1 : ℚ) < 0; norm_num)

/-! ## Claim C4 -/

theorem dropWhile_append_all {p : α → Bool} {xs : List α} (ys : List α)
    (h : ∀ x ∈ xs, p x = true) : (xs ++ ys).dropWhile p = ys.dropWhile p := by
  induction xs with
  | nil => rfl
  | cons a l ih =>
      have ha : p a = true := h a (by simp)
      simp only [List.cons_append, List.dropWhile_cons, ha, if_true]
      exact ih (fun x hx => h x (by simp [hx]))

theorem dropWhile_append_ne_nil {p : α → Bool} {xs : List α} (ys : List α)
    (h : xs.dropWhile p ≠ []) : (xs ++ ys).dropWhile p = xs.dropWhile p ++ ys := by
  induction xs with
  | nil => exact absurd rfl h
  | cons a l ih =>
      by_cases ha : p a = true
      · rw [List.cons_append, List.dropWhile_cons, if_pos ha]
        rw [List.dropWhile_cons, if_pos ha] at h ⊢
        exact ih h
      · have ha' : p a = false := by simpa using ha
        simp [List.dropWhile_cons, ha']

theorem dropWhile_ne_nil_of_mem {p : α → Bool} {x : α} {l : List α}
    (hx : x ∈ l) (hpx : p x = false) : l.dropWhile p ≠ [] := by
  intro h
  have := (List.dropWhile_eq_nil_iff).mp h x hx
  simp [hpx] at this

theorem dropWhile_head_false {p : α → Bool} {l : List α} {y : α} {ys : List α}
    (h : l.dropWhile p = y :: ys) : p y = false := by
  induction l with
  | nil => simp at h
  | cons a l ih =>
      by_cases ha : p a = true
      · rw [List.dropWhile_cons, if_pos ha] at h; exact ih h
      · have ha' : p a = false := by simpa using ha
        rw [List.dropWhile_cons, if_neg (by simp [ha'])] at h
        obtain ⟨rfl, rfl⟩ := List.cons.inj h
        exact ha'

theorem head?_append_left (l₁ l₂ : List α) (h : l₁ ≠ []) :
    (l₁ ++ l₂).head? = l₁.head? := by
  cases l₁ with
  | nil => exact absurd rfl h
  | cons a t => rfl

theorem mem_takeWhile_pred {p : α → Bool} {x : α} {l : List α}
    (hx : x ∈ l.takeWhile p) : p x = true := by
  induction l with
  | nil => simp [List.takeWhile] at hx
  | cons a t ih =>
      by_cases ha : p a = true
      · rw [List.takeWhile_cons, if_pos ha] at hx
        rcases List.mem_cons.mp hx with rfl | hx'
        · exact ha
        · exact ih hx'
      · rw [List.takeWhile_cons, if_neg (by simpa using ha)] at hx
        simp at hx

theorem posixDirname_append_simple (d n : List Char)
    (hd : d ≠ []) (hdl : d.getLast? ≠ some '/')
    (hds : ∃ c ∈ d, c ≠ '/')
    (hn : ∀ c ∈ n, c ≠ '/') :
    posixDirname (d ++ '/' :: n) = d := by
  obtain ⟨c, hcd, hcne⟩ := hds
  have hhead : ((d ++ '/' :: n).reverse.dropWhile (fun c => c != '/')).reverse =
      d ++ ['/'] := by
    have hrev : (d ++ '/' :: n).reverse = n.reverse ++ '/' :: d.reverse := by
      simp
    rw [hrev, dropWhile_append_all _ (fun x hx => by
      simpa using hn x (List.mem_reverse.mp hx))]
    rw [List.dropWhile_cons, if_neg (by simp)]
    simp
  simp only [posixDirname]
  rw [hhead]
  rw [if_neg ?hcond]
  case hcond =>
    intro hor
    rcases hor with hnil | hall
    · exact absurd (List.append_eq_nil.mp hnil).2 (by simp)
    · have := List.all_eq_true.mp hall c (by simp [hcd])
      simp at this
      exact hcne this
  have hrev2 : (d ++ ['/']).reverse = '/' :: d.reverse := by simp
  rw [hrev2, List.dropWhile_cons, if_pos (by simp)]
  cases hdr : d.reverse with
  | nil => exact absurd (by simpa using congrArg List.reverse hdr) hd
  | cons c0 t =>
      have hc0 : c0 ≠ '/' := by
        have : d.reverse.head? = d.getLast? := List.head?_reverse d
        rw [hdr] at this
        intro hc
        exact hdl (by rw [← this, hc]; rfl)
      rw [List.dropWhile_cons, if_neg (by simp [hc0])]
      rw [← hdr, List.reverse_reverse]

theorem posixDirname_append_slash_ne (d n : List Char)
    (hds : ∃ c ∈ d, c ≠ '/')
    (hn0 : n.head? ≠ some '/')
    (hnm : '/' ∈ n) :
    posixDirname (d ++ '/' :: n) ≠ d := by
  obtain ⟨c, hcd, hcne⟩ := hds
  -- decompose n.reverse at its first slash (the last slash of n)
  have hqne : n.reverse.dropWhile (fun c => c != '/') ≠ [] :=
    dropWhile_ne_nil_of_mem (List.mem_reverse.mpr hnm) (by simp)
  cases hq : n.reverse.dropWhile (fun c => c != '/') with
  | nil => exact absurd hq hqne
  | cons y q' =>
      have hy : y = '/' := by
        have := dropWhile_head_false hq
        simpa using this
      subst hy
      have htw : n.reverse.takeWhile (fun c => c != '/') ++ '/' :: q' = n.reverse := by
        rw [← hq]; exact List.takeWhile_append_dropWhile _ _
      -- q' is nonempty and its reversal starts with n's first character
      have hnform : n = q'.reverse ++ '/' :: (n.reverse.takeWhile (fun c => c != '/')).reverse := by
        have := congrArg List.reverse htw
        simpa using this.symm
      have hq'ne : q' ≠ [] := by
        intro hq'
        subst hq'
        rw [hnform] at hn0
        simp at hn0
      have hc1 : ∃ c1 ∈ q', c1 ≠ '/' := by
        cases hqr : q'.reverse with
        | nil => exact absurd (by simpa using congrArg List.reverse hqr) hq'ne
        | cons c1 u =>
            refine ⟨c1, ?_, ?_⟩
            · have : c1 ∈ q'.reverse := by rw [hqr]; simp
              exact List.mem_reverse.mp this
            · intro hc
              subst hc
              rw [hnform, hqr] at hn0
              simp at hn0
      obtain ⟨c1, hc1m, hc1ne⟩ := hc1
      have hwne : q'.dropWhile (fun c => c == '/') ≠ [] :=
        dropWhile_ne_nil_of_mem hc1m (by simp [hc1ne])
      have hhead : ((d ++ '/' :: n).reverse.dropWhile (fun c => c != '/')).reverse =
          ('/' :: (q' ++ '/' :: d.reverse)).reverse := by
        have hrev : (d ++ '/' :: n).reverse = n.reverse ++ '/' :: d.reverse := by simp
        rw [hrev, dropWhile_append_ne_nil _ hqne, hq]
        simp
      simp only [posixDirname]
      rw [hhead]
      rw [if_neg ?hcond]
      case hcond =>
        intro hor
        rcases hor with hnil | hall
        · simp at hnil
        · have := List.all_eq_true.mp hall c (by simp [hcd])
          simp at this
          exact hcne this
      rw [List.reverse_reverse, List.dropWhile_cons, if_pos (by simp)]
      rw [dropWhile_append_ne_nil _ hwne]
      intro heq
      have hlen := congrArg List.length heq
      have hwpos : 0 < (q'.dropWhile (fun c => c == '/')).length :=
        List.length_pos.mpr hwne
      simp only [List.length_reverse, List.length_append, List.length_cons] at hlen
      omega

theorem posixJoin_rel (d n : List Char) (hd : d ≠ []) (hdl : d.getLast? ≠ some '/')
    (hn0 : n.head? ≠ some '/') : posixJoin d n = d ++ '/' :: n := by
  unfold posixJoin
  rw [if_neg hn0, if_neg (by push_neg; exact ⟨hd, hdl⟩)]

/-- Claim C4 (amended): resolution fails with the invalid-path
`DocumentError` exactly when the parent of the joined path differs from the
base directory.  Every name without a separator — the empty name included —
resolves successfully with the parent of the resolved path equal to the
base directory (first conjunct); every relative name containing a
separator, in particular every name containing `../`, is rejected (second
conjunct); and the empty name concretely resolves to the base directory
plus a trailing separator instead of failing (third conjunct). -/
theorem c4_path_resolution :
    (∀ (d n : List Char), d ≠ [] → d.getLast? ≠ some '/' → (∃ c ∈ d, c ≠ '/') →
       (∀ c ∈ n, c ≠ '/') →
       get_doc_path_chars n d = .ok (d ++ '/' :: n) ∧
       posixDirname (d ++ '/' :: n) = d) ∧
    (∀ (d n : List Char), d ≠ [] → d.getLast? ≠ some '/' → (∃ c ∈ d, c ≠ '/') →
       n.head? ≠ some '/' → '/' ∈ n →
       get_doc_path_chars n d =
         .error (.documentError "Invalid document path" "DOC_LOAD_ERROR")) ∧
    get_doc_path "" "./word_files" = .ok "./word_files/" := by
  refine ⟨?_, ?_, by decide⟩
  · intro d n hd hdl hds hn
    have hdir := posixDirname_append_simple d n hd hdl hds hn
    have hn0 : n.head? ≠ some '/' := by
      cases n with
      | nil => simp
      | cons a t =>
          simp only [List.head?, ne_eq, Option.some.injEq]
          exact hn a (by simp)
    have hjoin := posixJoin_rel d n hd hdl hn0
    refine ⟨?_, hdir⟩
    simp only [get_doc_path_chars]
    rw [hjoin, if_neg (by simp [hdir])]
  · intro d n hd hdl hds hn0 hnm
    have hne := posixDirname_append_slash_ne d n hds hn0 hnm
    have hjoin := posixJoin_rel d n hd hdl hn0
    simp only [get_doc_path_chars]
    rw [hjoin, if_pos hne]

/-- Counterexample for C4 as frozen: resolving the EMPTY document name does
not fail with `InvalidPath` — it succeeds, returning the base directory
with a trailing separator (`os.path.dirname` of `base/` is `base` again,
so the validation passes). -/
theorem c4_counterexample : get_doc_path "" "./word_files" = .ok "./word_files/" := by
  decide

/-- Witness for C4 at concrete inputs: the simple name `a.docx` resolves
under the base directory, and the traversal name `../evil.docx` is
rejected. -/
theorem c4_witness :
    (get_doc_path_chars "a.docx".data "./word_files".data =
       .ok ("./word_files".data ++ '/' :: "a.docx".data) ∧
     posixDirname ("./word_files".data ++ '/' :: "a.docx".data) = "./word_files".data) ∧
    get_doc_path_chars "../evil.docx".data "./word_files".data =
      .error (.documentError "Invalid document path" "DOC_LOAD_ERROR") :=
  ⟨c4_path_resolution.1 "./word_files".data "a.docx".data (by decide) (by decide)
      (by decide) (by decide),
   c4_path_resolution.2.1 "./word_files".data "../evil.docx".data (by decide) (by decide)
      (by decide) (by decide) (by decide)⟩

/-! ## Claim C1 -/

theorem get_doc_path_chars_err {f d : List Char} {e : Err}
    (h : get_doc_path_chars f d = .error e) :
    e = .documentError "Invalid document path" "DOC_LOAD_ERROR" := by
  simp only [get_doc_path_chars] at h
  split at h
  · exact (Except.error.inj h).symm
  · exact Except.noConfusion h

theorem get_doc_path_err_shape {f d : String} {e : Err}
    (h : get_doc_path f d = .error e) :
    e = .documentError "Invalid document path" "DOC_LOAD_ERROR" := by
  unfold get_doc_path at h
  cases hg : get_doc_path_chars f.data d.data with
  | ok l => rw [hg] at h; exact Except.noConfusion h
  | error e' =>
      rw [hg] at h
      obtain rfl := Except.error.inj h
      exact get_doc_path_chars_err hg

theorem baseHandlerInit_err_shape {fs : FS} {p : String} {e : Err}
    (h : baseHandlerInit fs p = .error e) : ∃ m c, e = .documentError m c := by
  unfold baseHandlerInit at h
  split at h
  · exact ⟨_, _, (Except.error.inj h).symm⟩
  · split at h
    · exact ⟨_, _, (Except.error.inj h).symm⟩
    · split at h
      · exact ⟨_, _, (Except.error.inj h).symm⟩
      · split at h
        · exact ⟨_, _, (Except.error.inj h).symm⟩
        · exact Except.noConfusion h

theorem get_paragraph_text_err_shape {doc : Document} {p s : Int} {e : Err}
    (h : get_paragraph_text doc p s = .error e) :
    ∃ m, e = .paragraphError m "PARA_CREATE_ERROR" := by
  unfold get_paragraph_text at h
  exact wrapParagraph_err_shape h

/-- Claim C1 (amended): a call to the `get_paragraph_text` tool either
returns a response dictionary — which is what happens for every failure of
the handler method itself, since those are all `ParagraphError`s and the
tool's `except ParagraphError` envelopes them — or lets a `DocumentError`
raised by path resolution or by the handler constructor (missing file, bad
extension, sectionless document) propagate uncaught out of the tool
function.  The claim as frozen is false: not every failure becomes an
envelope. -/
theorem c1_tool_failures_enveloped_or_raised :
    ∀ (fs : FS) (document_name : String) (p s : Int) (doc_files_path : String),
      (∃ r, api_get_paragraph_text fs document_name p s doc_files_path = .returns r) ∨
      (∃ m c, api_get_paragraph_text fs document_name p s doc_files_path =
        .raised (.documentError m c)) := by
  intro fs name p s base
  simp only [api_get_paragraph_text]
  cases hg : get_doc_path name base with
  | error e =>
      obtain rfl := get_doc_path_err_shape hg
      exact .inr ⟨"Invalid document path", "DOC_LOAD_ERROR", by rw [error_bind]⟩
  | ok path =>
      rw [ok_bind]
      cases hi : baseHandlerInit fs path with
      | error e =>
          obtain ⟨m, c, rfl⟩ := baseHandlerInit_err_shape hi
          exact .inr ⟨m, c, by rw [error_bind]⟩
      | ok doc =>
          rw [ok_bind]
          cases hr : get_paragraph_text doc p s with
          | ok r => exact .inl ⟨_, rfl⟩
          | error e =>
              obtain ⟨m, rfl⟩ := get_paragraph_text_err_shape hr
              exact .inl ⟨_, rfl⟩

/-- Counterexample for C1 as frozen: requesting paragraph text of a
missing file makes the `DocumentError` raised inside the handler
constructor escape the tool function — the outcome is a propagating
exception, not an ErrorEnvelope. -/
theorem c1_counterexample :
    api_get_paragraph_text fsNone "a.docx" 0 0 "./word_files" =
      .raised (.documentError "Document file not found: ./word_files/a.docx"
        "DOC_LOAD_ERROR") := by
  decide

/-- Witness for C1 at a concrete input. -/
theorem c1_witness :
    (∃ r, api_get_paragraph_text fsA "a.docx" 0 0 "./word_files" = .returns r) ∨
    (∃ m c, api_get_paragraph_text fsA "a.docx" 0 0 "./word_files" =
      .raised (.documentError m c)) :=
  c1_tool_failures_enveloped_or_raised fsA "a.docx" 0 0 "./word_files"

/-! ## Claim C3 -/

theorem convLoadDocument_ok {fs : FS} {path : String} {doc : Document}
    (h : fs path = some doc) : convLoadDocument fs (some path) = .ok () := by
  simp only [convLoadDocument, h]

theorem convertBody_unsupported (st : ConvState) (fs : FS) {f : String}
    (o : Option String) (h : ¬ (strLower f ∈ SUPPORTED_FORMAT_NAMES)) :
    convertBody st fs f o =
      .error (.conversionError ("Unsupported format: " ++ f) "CONV_PROCESS_ERROR") := by
  unfold convertBody
  rw [if_pos h]
  rfl

theorem convertBody_ok {st : ConvState} {fs : FS} {path : String} {doc : Document}
    {f : String} {o : Option String}
    (hpath : st.doc_path = some path) (hfs : fs path = some doc)
    (hf : strLower f ∈ SUPPORTED_FORMAT_NAMES) :
    ∃ v, convertBody st fs f o = .ok v := by
  unfold convertBody
  rw [if_neg (not_not_intro hf), hpath]
  rw [bind_ok_left (convLoadDocument_ok hfs)]
  exact ⟨_, rfl⟩

theorem convert_document_append (st : ConvState) (fs : FS) (f : String)
    (o : Option String) (now : String) :
    ∃ record,
      (convert_document st fs f o now).1.conversion_history =
        st.conversion_history ++ [record] ∧
      (convert_document st fs f o now).1.conversion_status = some record := by
  unfold convert_document
  cases hb : convertBody st fs f o with
  | ok v =>
      cases v with
      | mk opath sfmt => exact ⟨_, rfl, rfl⟩
  | error e => exact ⟨_, rfl, rfl⟩

theorem string_append_ne_empty_left (a b : String) (h : a.data ≠ []) :
    a ++ b ≠ "" := by
  intro hc
  have := congrArg String.data hc
  rw [String.data_append] at this
  rcases List.append_eq_nil.mp this with ⟨h1, _⟩
  exact h h1

/-- Claim C3 (amended): conversion records are append-only and the current
status is always the most recently appended record (first conjunct); at the
HANDLER level, two `convert_document` attempts on a fresh tracker — the
second forced to fail by an unsupported target format — leave exactly 2
records, the second with status "failed", a non-empty error message, and
equal to the current status (second conjunct).  At the TOOL level the claim
as frozen is false: each API call constructs a fresh `ConversionHandler`,
so `get_conversion_history` always reports an empty history (third
conjunct). -/
theorem c3_conversion_history :
    (∀ (st : ConvState) (fs : FS) (f : String) (o : Option String) (now : String),
       ∃ record,
         (convert_document st fs f o now).1.conversion_history =
           st.conversion_history ++ [record] ∧
         (convert_document st fs f o now).1.conversion_status = some record) ∧
    (∀ (fs : FS) (path : String) (doc : Document) (f1 f2 : String)
       (o1 o2 : Option String) (t1 t2 : String),
       fs path = some doc →
       strLower f1 ∈ SUPPORTED_FORMAT_NAMES →
       ¬ (strLower f2 ∈ SUPPORTED_FORMAT_NAMES) →
       ∃ r2,
         (convert_document (convert_document { doc_path := some path } fs f1 o1 t1).1
             fs f2 o2 t2).1.conversion_history.length = 2 ∧
         (convert_document (convert_document { doc_path := some path } fs f1 o1 t1).1
             fs f2 o2 t2).1.conversion_history.get? 1 = some r2 ∧
         r2.status = "failed" ∧
         (∃ msg, r2.error = some msg ∧ msg ≠ "") ∧
         (convert_document (convert_document { doc_path := some path } fs f1 o1 t1).1
             fs f2 o2 t2).1.conversion_status = some r2) ∧
    (∀ (fs : FS) (document_name doc_files_path path : String),
       get_doc_path document_name doc_files_path = .ok path →
       api_get_conversion_history fs document_name doc_files_path =
         .returns { success := true
                    message := "Conversion history retrieved successfully"
                    data := some { history := [], total_conversions := 0 } }) := by
  refine ⟨fun st fs f o now => convert_document_append st fs f o now, ?_, ?_⟩
  · intro fs path doc f1 f2 o1 o2 t1 t2 hfs hf1 hf2
    set st0 : ConvState := { doc_path := some path } with hst0
    set st1 := (convert_document st0 fs f1 o1 t1).1 with hst1
    have hlen1 : st1.conversion_history.length = 1 := by
      obtain ⟨r1, hr1, _⟩ := convert_document_append st0 fs f1 o1 t1
      rw [hst1, hr1]
      rfl
    have hbody2 := convertBody_unsupported st1 fs o2 hf2
    refine ⟨{ timestamp := t2
              source_format := st1.doc_path.map (fun p => strLower (lastDotSegment p))
              target_format := strLower f2
              error := some ((Err.conversionError ("Unsupported format: " ++ f2)
                "CONV_PROCESS_ERROR").message)
              status := "failed" }, ?_, ?_, rfl, ?_, ?_⟩
    · show (convert_document st1 fs f2 o2 t2).1.conversion_history.length = 2
      unfold convert_document
      rw [hbody2]
      simp [hlen1]
    · show (convert_document st1 fs f2 o2 t2).1.conversion_history.get? 1 = _
      unfold convert_document
      rw [hbody2, ← hlen1, List.get?_eq_getElem?]
      exact List.getElem?_concat_length _ _
    · exact ⟨"Unsupported format: " ++ f2, rfl,
        string_append_ne_empty_left _ _ (by decide)⟩
    · show (convert_document st1 fs f2 o2 t2).1.conversion_status = _
      unfold convert_document
      rw [hbody2]
  · intro fs name base path hg
    simp only [api_get_conversion_history]
    rw [hg]
    rfl

/-- Counterexample for C3 as frozen: a successful conversion of `a.docx` to
PDF, then a failing conversion to the unsupported format "xyz", followed by
the `get_conversion_history` TOOL call — which reports 0 records, not 2,
because each tool call builds a fresh handler. -/
theorem c3_counterexample :
    (match api_convert_document fsA "a.docx" "pdf" none "./word_files" "t1" with
     | .returns r => r.success
     | .raised _ => false) = true ∧
    (match api_convert_document fsA "a.docx" "xyz" none "./word_files" "t2" with
     | .returns r => decide (r.success = false) && r.error.isSome
     | .raised _ => false) = true ∧
    api_get_conversion_history fsA "a.docx" "./word_files" =
      .returns { success := true
                 message := "Conversion history retrieved successfully"
                 data := some { history := [], total_conversions := 0 } } := by
  refine ⟨by decide, by decide, by decide⟩

/-- Witness for C3 at concrete input: the handler-level two-attempt
scenario on `fsA`. -/
theorem c3_witness :
    ∃ r2,
      (convert_document (convert_document { doc_path := some "./word_files/a.docx" }
          fsA "pdf" none "t1").1 fsA "xyz" none "t2").1.conversion_history.length = 2 ∧
      (convert_document (convert_document { doc_path := some "./word_files/a.docx" }
          fsA "pdf" none "t1").1 fsA "xyz" none "t2").1.conversion_history.get? 1 =
        some r2 ∧
      r2.status = "failed" ∧
      (∃ msg, r2.error = some msg ∧ msg ≠ "") ∧
      (convert_document (convert_document { doc_path := some "./word_files/a.docx" }
          fsA "pdf" none "t1").1 fsA "xyz" none "t2").1.conversion_status = some r2 :=
  c3_conversion_history.2.1 fsA "./word_files/a.docx" docOne "pdf" "xyz" none none
    "t1" "t2" (by decide) (by decide) (by decide)
